import Mathlib

/-!
The `lagfree` cpufreq governor (drivers/cpufreq/cpufreq_lagfree.c).

A shallow embedding of the decision engine of the governor (`dbs_check_cpu`), its
transition notifier and its sysfs tunables, followed by theorems about them.

Conventions of the embedding.

* `unsigned int` values are natural numbers; every C operation that can wrap
  is written with an explicit `% U32` (`U32 = 2^32`), and a subtraction
  `a - b` of unsigned values is `(a + U32 - b) % U32`.
* A global or per-CPU variable that a function reads or writes is an explicit
  argument and result of the embedded function.
* `__cpufreq_driver_target(policy, f, CPUFREQ_RELATION_H)` is the only call
  with an outside effect; a step returns `some f` when it makes the call and
  `none` when it does not.
* `sscanf(buf, "%u", &input)` is represented by what it delivers: its return
  value `ret` and the content of `input` afterwards.
* `usecs_to_jiffies` is declared outside this file and is an argument.
* `total_idle_ticks`, which `dbs_check_cpu` reads at line 359, is the idle
  reading of the tick and is an argument.
-/

namespace Lagfree

/-! ## Constants (lines 43-70) -/

def DEF_FREQUENCY_UP_THRESHOLD : Nat := 50
def DEF_FREQUENCY_DOWN_THRESHOLD : Nat := 15
def FREQ_STEP_DOWN : Nat := 160000
def FREQ_SLEEP_MAX : Nat := 320000
def FREQ_AWAKE_MIN : Nat := 480000
def FREQ_STEP_UP_SLEEP_PERCENT : Nat := 20
def MIN_SAMPLING_RATE_RATIO : Nat := 2
def DEF_SAMPLING_DOWN_FACTOR : Nat := 4
def MAX_SAMPLING_DOWN_FACTOR : Nat := 10

/-- The modulus of `unsigned int` arithmetic, `2^32`. -/
def U32 : Nat := 4294967296

def UINT_MAX : Nat := 4294967295

def EINVAL : Int := 22

/-- `MIN_SAMPLING_RATE` (lines 66-67): `def_sampling_rate / MIN_SAMPLING_RATE_RATIO`. -/
def MIN_SAMPLING_RATE (def_sampling_rate : Nat) : Nat :=
  def_sampling_rate / MIN_SAMPLING_RATE_RATIO

/-- `MAX_SAMPLING_RATE` (line 68): `500 * def_sampling_rate` in `unsigned int`. -/
def MAX_SAMPLING_RATE (def_sampling_rate : Nat) : Nat :=
  (500 * def_sampling_rate) % U32

/-! ## Data model (lines 75-113) -/

/-- The two fields of `struct cpufreq_policy` that the governor reads. -/
structure cpufreq_policy where
  min : Nat
  max : Nat
deriving DecidableEq

/-- `struct cpu_dbs_info_s` (lines 75-82); `cur_policy` holds the policy the
pointer refers to. -/
structure cpu_dbs_info_s where
  cur_policy : cpufreq_policy
  prev_cpu_idle_up : Nat
  prev_cpu_idle_down : Nat
  enable : Nat
  down_skip : Nat
  requested_freq : Nat
deriving DecidableEq

/-- `struct dbs_tuners` (lines 98-105). -/
structure dbs_tuners where
  sampling_rate : Nat
  sampling_down_factor : Nat
  up_threshold : Nat
  down_threshold : Nat
  ignore_nice : Nat
deriving DecidableEq

/-- The static initialiser of `dbs_tuners_ins` (lines 107-113); `sampling_rate`
has no initialiser and is zero. -/
def dbs_tuners_ins : dbs_tuners :=
  { sampling_rate := 0
    sampling_down_factor := DEF_SAMPLING_DOWN_FACTOR
    up_threshold := DEF_FREQUENCY_UP_THRESHOLD
    down_threshold := DEF_FREQUENCY_DOWN_THRESHOLD
    ignore_nice := 1 }

/-- The state the tunable writes act on: the tunables and the per-CPU array
`cpu_dbs_info`, indexed by CPU number. -/
structure dbs_state where
  tuners : dbs_tuners
  cpu_dbs_info : List cpu_dbs_info_s
deriving DecidableEq

/-! ## The decision engine (lines 327-468) -/

/-- The scaled idle delta of the up-check (lines 356-367): the unsigned
difference to the previous snapshot, bounded by `UINT_MAX`, times 100. -/
def up_idle_scaled (total_idle_ticks prev_cpu_idle_up : Nat) : Nat :=
  let idle_ticks := UINT_MAX
  let tmp_idle_ticks := (total_idle_ticks + U32 - prev_cpu_idle_up) % U32
  let idle_ticks := if tmp_idle_ticks < idle_ticks then tmp_idle_ticks else idle_ticks
  (idle_ticks * 100) % U32

/-- The value of `up_idle_ticks` (lines 368-369). -/
def up_idle_ticks (usecs_to_jiffies : Nat → Nat) (t : dbs_tuners) : Nat :=
  (((100 + U32 - t.up_threshold) % U32) * usecs_to_jiffies t.sampling_rate) % U32

/-- The up-condition of line 371: the scaled idle delta is below the up idle
threshold. -/
def up_condition (usecs_to_jiffies : Nat → Nat) (t : dbs_tuners)
    (total_idle_ticks : Nat) (s : cpu_dbs_info_s) : Prop :=
  up_idle_scaled total_idle_ticks s.prev_cpu_idle_up < up_idle_ticks usecs_to_jiffies t

instance (usecs_to_jiffies : Nat → Nat) (t : dbs_tuners) (total_idle_ticks : Nat)
    (s : cpu_dbs_info_s) : Decidable (up_condition usecs_to_jiffies t total_idle_ticks s) := by
  unfold up_condition; infer_instance

/-- The body of the `if (idle_ticks < up_idle_ticks)` branch (lines 372-404);
`s` already carries the new `prev_cpu_idle_up`. -/
def dbs_check_up (suspended : Nat) (s : cpu_dbs_info_s) : cpu_dbs_info_s × Option Nat :=
  let policy := s.cur_policy
  let s := { s with down_skip := 0, prev_cpu_idle_down := s.prev_cpu_idle_up }
  if s.requested_freq = policy.max ∧ suspended = 0 then (s, none)
  else
    let freq_target :=
      if suspended ≠ 0 then ((FREQ_STEP_UP_SLEEP_PERCENT * policy.max) % U32) / 100
      else policy.max
    let freq_target := if freq_target = 0 then 5 else freq_target
    let r := (s.requested_freq + freq_target) % U32
    let r := if r > policy.max then policy.max else r
    let r := if suspended ≠ 0 ∧ r > FREQ_SLEEP_MAX then FREQ_SLEEP_MAX else r
    let r := if suspended = 0 ∧ r < FREQ_AWAKE_MIN then FREQ_AWAKE_MIN else r
    ({ s with requested_freq := r }, some r)

/-- The value of `down_idle_ticks` (lines 425-428). -/
def down_idle_ticks (usecs_to_jiffies : Nat → Nat) (t : dbs_tuners) : Nat :=
  let freq_down_sampling_rate := (t.sampling_rate * t.sampling_down_factor) % U32
  (((100 + U32 - t.down_threshold) % U32) * usecs_to_jiffies freq_down_sampling_rate) % U32

/-- The body of the `if (idle_ticks > down_idle_ticks)` branch (lines 431-466). -/
def dbs_check_lower (suspended : Nat) (s : cpu_dbs_info_s) : cpu_dbs_info_s × Option Nat :=
  let policy := s.cur_policy
  if s.requested_freq = policy.min ∧ suspended ≠ 0 then (s, none)
  else
    let freq_target := FREQ_STEP_DOWN
    let freq_target := if freq_target = 0 then 5 else freq_target
    let r :=
      if freq_target > s.requested_freq then policy.min
      else s.requested_freq - freq_target
    let r := if r < policy.min then policy.min else r
    let r := if suspended = 0 ∧ r < FREQ_AWAKE_MIN then FREQ_AWAKE_MIN else r
    let r := if suspended ≠ 0 ∧ r > FREQ_SLEEP_MAX then FREQ_SLEEP_MAX else r
    ({ s with requested_freq := r }, some r)

/-- The down-check (lines 407-467); `idle_ticks` is the scaled up-window value
left in the variable by the up-check, and `s` carries the new
`prev_cpu_idle_up`. -/
def dbs_check_down (usecs_to_jiffies : Nat → Nat) (t : dbs_tuners) (suspended : Nat)
    (idle_ticks : Nat) (s : cpu_dbs_info_s) : cpu_dbs_info_s × Option Nat :=
  let s := { s with down_skip := (s.down_skip + 1) % U32 }
  if s.down_skip < t.sampling_down_factor then (s, none)
  else
    let total_idle_ticks := s.prev_cpu_idle_up
    let tmp_idle_ticks := (total_idle_ticks + U32 - s.prev_cpu_idle_down) % U32
    let s := { s with prev_cpu_idle_down := total_idle_ticks }
    let idle_ticks := if tmp_idle_ticks < idle_ticks then tmp_idle_ticks else idle_ticks
    let idle_ticks := (idle_ticks * 100) % U32
    let s := { s with down_skip := 0 }
    if idle_ticks > down_idle_ticks usecs_to_jiffies t then dbs_check_lower suspended s
    else (s, none)

/-- `dbs_check_cpu` (lines 327-468) for one CPU: the new per-CPU state and the
frequency passed to `__cpufreq_driver_target`, if the call is made. -/
def dbs_check_cpu (usecs_to_jiffies : Nat → Nat) (t : dbs_tuners) (suspended : Nat)
    (total_idle_ticks : Nat) (s : cpu_dbs_info_s) : cpu_dbs_info_s × Option Nat :=
  if s.enable = 0 then (s, none)
  else
    let idle_ticks := up_idle_scaled total_idle_ticks s.prev_cpu_idle_up
    let s := { s with prev_cpu_idle_up := total_idle_ticks }
    if idle_ticks < up_idle_ticks usecs_to_jiffies t then dbs_check_up suspended s
    else dbs_check_down usecs_to_jiffies t suspended idle_ticks s

/-! ## The transition notifier (lines 115-130) -/

/-- Replace the entry of CPU `cpu` in the per-CPU array by `f` of it. -/
def per_cpu_update (f : cpu_dbs_info_s → cpu_dbs_info_s) :
    List cpu_dbs_info_s → Nat → List cpu_dbs_info_s
  | [], _ => []
  | x :: xs, 0 => f x :: xs
  | x :: xs, cpu + 1 => x :: per_cpu_update f xs cpu

/-- The effect of `dbs_cpufreq_notifier` on the per-CPU entry of `freq->cpu`
(lines 124-129); `freq_new` is `freq->new`. -/
def dbs_cpufreq_notifier_info (freq_new : Nat) (s : cpu_dbs_info_s) : cpu_dbs_info_s :=
  if s.enable = 0 then s
  else { s with requested_freq := freq_new }

/-- `dbs_cpufreq_notifier` (lines 116-130): the new state and the return value. -/
def dbs_cpufreq_notifier (st : dbs_state) (freq_cpu freq_new : Nat) : dbs_state × Int :=
  ({ st with cpu_dbs_info :=
      per_cpu_update (dbs_cpufreq_notifier_info freq_new) st.cpu_dbs_info freq_cpu }, 0)

/-! ## The sysfs interface (lines 136-306)

A store function takes the state, the two results `ret` and `input` of its
`sscanf` call and the byte count `count`; it returns the new state and its
return value, `count` or `-EINVAL`. A show function returns the number it
prints. -/

/-- `show_sampling_rate_max` (lines 137-140). -/
def show_sampling_rate_max (def_sampling_rate : Nat) : Nat :=
  MAX_SAMPLING_RATE def_sampling_rate

/-- `show_sampling_rate_min` (lines 142-145). -/
def show_sampling_rate_min (def_sampling_rate : Nat) : Nat :=
  MIN_SAMPLING_RATE def_sampling_rate

/-- `store_sampling_down_factor` (lines 168-182). -/
def store_sampling_down_factor (st : dbs_state) (ret : Int) (input count : Nat) :
    dbs_state × Int :=
  if ret ≠ 1 ∨ input > MAX_SAMPLING_DOWN_FACTOR ∨ input < 1 then (st, -EINVAL)
  else ({ st with tuners := { st.tuners with sampling_down_factor := input } }, count)

/-- `store_sampling_rate` (lines 184-201). -/
def store_sampling_rate (def_sampling_rate : Nat) (st : dbs_state) (ret : Int)
    (input count : Nat) : dbs_state × Int :=
  if ret ≠ 1 ∨ input > MAX_SAMPLING_RATE def_sampling_rate
      ∨ input < MIN_SAMPLING_RATE def_sampling_rate then (st, -EINVAL)
  else ({ st with tuners := { st.tuners with sampling_rate := input } }, count)

/-- `store_up_threshold` (lines 203-220). -/
def store_up_threshold (st : dbs_state) (ret : Int) (input count : Nat) : dbs_state × Int :=
  if ret ≠ 1 ∨ input > 100 ∨ input ≤ st.tuners.down_threshold then (st, -EINVAL)
  else ({ st with tuners := { st.tuners with up_threshold := input } }, count)

/-- `store_down_threshold` (lines 222-239). -/
def store_down_threshold (st : dbs_state) (ret : Int) (input count : Nat) : dbs_state × Int :=
  if ret ≠ 1 ∨ input > 100 ∨ input ≥ st.tuners.up_threshold then (st, -EINVAL)
  else ({ st with tuners := { st.tuners with down_threshold := input } }, count)

/-- The loop of lines 264-268: for each online CPU `j`, counting from `j`,
`prev_cpu_idle_down` takes the value of `prev_cpu_idle_up`. -/
def rebaseline_online (cpu_online : Nat → Bool) :
    Nat → List cpu_dbs_info_s → List cpu_dbs_info_s
  | _, [] => []
  | j, x :: xs =>
    (if cpu_online j then { x with prev_cpu_idle_down := x.prev_cpu_idle_up } else x)
      :: rebaseline_online cpu_online (j + 1) xs

/-- `store_ignore_nice_load` (lines 241-272); `cpu_online` is the online mask
that `for_each_online_cpu` walks. -/
def store_ignore_nice_load (cpu_online : Nat → Bool) (st : dbs_state) (ret : Int)
    (input count : Nat) : dbs_state × Int :=
  if ret ≠ 1 then (st, -EINVAL)
  else
    let input := if input > 1 then 1 else input
    if input = st.tuners.ignore_nice then (st, count)
    else
      ({ tuners := { st.tuners with ignore_nice := input }
         cpu_dbs_info := rebaseline_online cpu_online 0 st.cpu_dbs_info }, count)

/-- A write to one of the five writable attributes of the `lagfree` group
(lines 301-305), with the results of its `sscanf` call and its byte count. -/
inductive tunable_write where
  | sampling_rate (ret : Int) (input count : Nat)
  | sampling_down_factor (ret : Int) (input count : Nat)
  | up_threshold (ret : Int) (input count : Nat)
  | down_threshold (ret : Int) (input count : Nat)
  | ignore_nice_load (ret : Int) (input count : Nat)

/-- The return value of the `sscanf` call of a write. -/
def tunable_write.ret : tunable_write → Int
  | .sampling_rate ret _ _ => ret
  | .sampling_down_factor ret _ _ => ret
  | .up_threshold ret _ _ => ret
  | .down_threshold ret _ _ => ret
  | .ignore_nice_load ret _ _ => ret

/-- The store function that `define_one_rw` attaches to each attribute. -/
def tunable_store (def_sampling_rate : Nat) (cpu_online : Nat → Bool) (st : dbs_state) :
    tunable_write → dbs_state × Int
  | .sampling_rate ret input count => store_sampling_rate def_sampling_rate st ret input count
  | .sampling_down_factor ret input count => store_sampling_down_factor st ret input count
  | .up_threshold ret input count => store_up_threshold st ret input count
  | .down_threshold ret input count => store_down_threshold st ret input count
  | .ignore_nice_load ret input count => store_ignore_nice_load cpu_online st ret input count

/-- The state after a sequence of writes, first write first. -/
def tunable_stores (def_sampling_rate : Nat) (cpu_online : Nat → Bool) :
    dbs_state → List tunable_write → dbs_state
  | st, [] => st
  | st, w :: ws =>
    tunable_stores def_sampling_rate cpu_online
      (tunable_store def_sampling_rate cpu_online st w).1 ws

/-- Modelled from the spec: `usecs_to_jiffies` is declared outside this file;
this is the number of ticks in a period for a 10 ms tick, rounded up, and it
is used in concrete scenarios only. -/
def usecs_to_jiffies_10ms (usecs : Nat) : Nat := (usecs + 9999) / 10000

/-- The tunables of the scenarios of the specification: thresholds 50 and 15,
a sampling rate of 100000 microseconds, a down factor of 4. -/
def scenario_tuners : dbs_tuners :=
  { sampling_rate := 100000
    sampling_down_factor := 4
    up_threshold := 50
    down_threshold := 15
    ignore_nice := 1 }

/-- An enabled CPU with the policy `[pmin, pmax]`, idle snapshots `idle` and
the request `freq`. -/
def scenario_cpu (pmin pmax idle freq : Nat) : cpu_dbs_info_s :=
  { cur_policy := { min := pmin, max := pmax }
    prev_cpu_idle_up := idle
    prev_cpu_idle_down := idle
    enable := 1
    down_skip := 0
    requested_freq := freq }

/-! ## The paths of a tick and runs of ticks -/

/-- The down-check is evaluated on this tick: the CPU is enabled (line 336),
the up-condition fails (line 371) and the incremented `down_skip` is not below
`sampling_down_factor` (line 409). -/
def down_evaluated (usecs_to_jiffies : Nat → Nat) (t : dbs_tuners)
    (total_idle_ticks : Nat) (s : cpu_dbs_info_s) : Prop :=
  s.enable ≠ 0 ∧ ¬ up_condition usecs_to_jiffies t total_idle_ticks s ∧
    ¬ ((s.down_skip + 1) % U32 < t.sampling_down_factor)

instance (usecs_to_jiffies : Nat → Nat) (t : dbs_tuners) (total_idle_ticks : Nat)
    (s : cpu_dbs_info_s) : Decidable (down_evaluated usecs_to_jiffies t total_idle_ticks s) := by
  unfold down_evaluated; infer_instance

/-- The value of `idle_ticks` that line 430 compares (lines 413-422), for the
state `s` before the tick and the idle reading of the tick. -/
def down_idle_scaled (total_idle_ticks : Nat) (s : cpu_dbs_info_s) : Nat :=
  let idle_ticks := up_idle_scaled total_idle_ticks s.prev_cpu_idle_up
  let tmp_idle_ticks := (total_idle_ticks + U32 - s.prev_cpu_idle_down) % U32
  let idle_ticks := if tmp_idle_ticks < idle_ticks then tmp_idle_ticks else idle_ticks
  (idle_ticks * 100) % U32

/-- The lowering branch of line 430 is taken on this tick. -/
def lowering_taken (usecs_to_jiffies : Nat → Nat) (t : dbs_tuners)
    (total_idle_ticks : Nat) (s : cpu_dbs_info_s) : Prop :=
  down_evaluated usecs_to_jiffies t total_idle_ticks s ∧
    down_idle_scaled total_idle_ticks s > down_idle_ticks usecs_to_jiffies t

instance (usecs_to_jiffies : Nat → Nat) (t : dbs_tuners) (total_idle_ticks : Nat)
    (s : cpu_dbs_info_s) : Decidable (lowering_taken usecs_to_jiffies t total_idle_ticks s) := by
  unfold lowering_taken; infer_instance

/-- The state in which the down evaluation leaves the CPU before line 430:
both snapshots are the idle reading and `down_skip` is zero. -/
def down_evaluated_state (total_idle_ticks : Nat) (s : cpu_dbs_info_s) : cpu_dbs_info_s :=
  { s with prev_cpu_idle_up := total_idle_ticks, prev_cpu_idle_down := total_idle_ticks,
           down_skip := 0 }

/-- What one tick of one CPU reads besides the per-CPU state: the tunables,
the `suspended` flag and the idle reading. -/
structure tick_input where
  tuners : dbs_tuners
  suspended : Nat
  total_idle_ticks : Nat

/-- Consecutive ticks of one CPU: the final per-CPU state and, tick by tick,
the request issued. -/
def run_ticks (usecs_to_jiffies : Nat → Nat) :
    cpu_dbs_info_s → List tick_input → cpu_dbs_info_s × List (Option Nat)
  | s, [] => (s, [])
  | s, i :: is =>
    let r := dbs_check_cpu usecs_to_jiffies i.tuners i.suspended i.total_idle_ticks s
    let rest := run_ticks usecs_to_jiffies r.1 is
    (rest.1, r.2 :: rest.2)

/-- The up-condition holds on none of the ticks of the run. -/
def no_up_run (usecs_to_jiffies : Nat → Nat) : cpu_dbs_info_s → List tick_input → Bool
  | _, [] => true
  | s, i :: is =>
    !decide (up_condition usecs_to_jiffies i.tuners i.total_idle_ticks s) &&
      no_up_run usecs_to_jiffies
        (dbs_check_cpu usecs_to_jiffies i.tuners i.suspended i.total_idle_ticks s).1 is

/-- `dbs_check_cpu(cpu)` on the whole state, as `do_dbs_timer` calls it (line
475): the entry of CPU `cpu` takes one step with the current tunables. -/
def dbs_check_cpu_state (usecs_to_jiffies : Nat → Nat) (suspended total_idle_ticks : Nat)
    (st : dbs_state) (cpu : Nat) : dbs_state :=
  let step := fun (s : cpu_dbs_info_s) =>
    (dbs_check_cpu usecs_to_jiffies st.tuners suspended total_idle_ticks s).1
  { st with cpu_dbs_info := per_cpu_update step st.cpu_dbs_info cpu }

/-- The range of the hysteresis counter: every CPU has
`down_skip < sampling_down_factor`. -/
def down_skip_in_range (st : dbs_state) : Prop :=
  ∀ x ∈ st.cpu_dbs_info, x.down_skip < st.tuners.sampling_down_factor

instance (st : dbs_state) : Decidable (down_skip_in_range st) := by
  unfold down_skip_in_range; infer_instance

/-- The regime clamp of lines 456-462: at least `FREQ_AWAKE_MIN` when awake,
at most `FREQ_SLEEP_MAX` when suspended. -/
def regime_clamp (suspended v : Nat) : Nat :=
  if suspended ≠ 0 then min v FREQ_SLEEP_MAX else max v FREQ_AWAKE_MIN

/-- Tunables for a long down window: thresholds 95 and 15, a sampling rate of
one second, a down factor of 10. -/
def long_window_tuners : dbs_tuners :=
  { sampling_rate := 1000000
    sampling_down_factor := 10
    up_threshold := 95
    down_threshold := 15
    ignore_nice := 1 }

/-- Nine fully idle one-second periods of an awake CPU under
`long_window_tuners` (10 ms tick, 100 ticks a period): the idle readings are
1100, 1200, ..., 1900. -/
def nine_idle_ticks : List tick_input :=
  (List.range 9).map
    (fun k => { tuners := long_window_tuners, suspended := 0,
                total_idle_ticks := 1100 + 100 * k })

/-- A tenth period that is 5% idle after `nine_idle_ticks`: the idle reading
is 1905. -/
def tenth_tick : tick_input :=
  { tuners := long_window_tuners, suspended := 0, total_idle_ticks := 1905 }

/-! ## The range of `requested_freq` -/

/-- The up-branch keeps `requested_freq` within the policy when the regime
bound lies within the policy and the addition cannot wrap. -/
theorem dbs_check_up_range (suspended : Nat) (s : cpu_dbs_info_s)
    (hlo : s.cur_policy.min ≤ s.requested_freq)
    (hhi : s.requested_freq ≤ s.cur_policy.max)
    (hmax : s.cur_policy.max < 2147483648)
    (hsleep : suspended ≠ 0 → s.cur_policy.min ≤ FREQ_SLEEP_MAX)
    (hawake : suspended = 0 → FREQ_AWAKE_MIN ≤ s.cur_policy.max) :
    s.cur_policy.min ≤ (dbs_check_up suspended s).1.requested_freq ∧
      (dbs_check_up suspended s).1.requested_freq ≤ s.cur_policy.max := by
  unfold dbs_check_up FREQ_STEP_UP_SLEEP_PERCENT U32
  unfold FREQ_SLEEP_MAX at hsleep ⊢
  unfold FREQ_AWAKE_MIN at hawake ⊢
  by_cases hs : suspended = 0
  · have ha := hawake hs
    simp only [hs]
    split_ifs <;> simp at * <;> omega
  · have hsl := hsleep hs
    have hft : 20 * s.cur_policy.max % 4294967296 / 100 ≤ 42949672 := by omega
    simp only [hs]
    generalize 20 * s.cur_policy.max % 4294967296 / 100 = d at hft ⊢
    split_ifs <;> simp at * <;> omega

/-- The lowering branch keeps `requested_freq` within the policy when the
regime bound lies within the policy. -/
theorem dbs_check_lower_range (suspended : Nat) (s : cpu_dbs_info_s)
    (hlo : s.cur_policy.min ≤ s.requested_freq)
    (hhi : s.requested_freq ≤ s.cur_policy.max)
    (hsleep : suspended ≠ 0 → s.cur_policy.min ≤ FREQ_SLEEP_MAX)
    (hawake : suspended = 0 → FREQ_AWAKE_MIN ≤ s.cur_policy.max) :
    s.cur_policy.min ≤ (dbs_check_lower suspended s).1.requested_freq ∧
      (dbs_check_lower suspended s).1.requested_freq ≤ s.cur_policy.max := by
  unfold dbs_check_lower FREQ_STEP_DOWN
  unfold FREQ_SLEEP_MAX at hsleep ⊢
  unfold FREQ_AWAKE_MIN at hawake ⊢
  by_cases hs : suspended = 0
  · have ha := hawake hs
    simp only [hs]
    split_ifs <;> simp at * <;> omega
  · have hsl := hsleep hs
    simp only [hs]
    split_ifs <;> simp at * <;> omega

/-- On an enabled CPU for which the up-condition holds, the step is the
up-branch applied to the state with the new up snapshot. -/
theorem dbs_check_cpu_of_up (usecs_to_jiffies : Nat → Nat) (t : dbs_tuners)
    (suspended total_idle_ticks : Nat) (s : cpu_dbs_info_s) (hen : s.enable ≠ 0)
    (hup : up_condition usecs_to_jiffies t total_idle_ticks s) :
    dbs_check_cpu usecs_to_jiffies t suspended total_idle_ticks s =
      dbs_check_up suspended { s with prev_cpu_idle_up := total_idle_ticks } := by
  unfold up_condition at hup
  unfold dbs_check_cpu
  simp only [hen, if_false, hup, if_true]

/-- C1 (amended): for an enabled CPU whose `requested_freq` lies in
`[policy.min, policy.max]` before the tick, with `policy.max < 2^31` (the
32-bit addition of the step cannot wrap) and with the regime bound inside the
policy range (`policy.min ≤ FREQ_SLEEP_MAX` while suspended,
`FREQ_AWAKE_MIN ≤ policy.max` while awake), `requested_freq` after one
`dbs_check_cpu` step lies in `[policy.min, policy.max]`, for every tunable
setting and idle reading. -/
theorem dbs_check_cpu_requested_freq_range (usecs_to_jiffies : Nat → Nat) (t : dbs_tuners)
    (suspended total_idle_ticks : Nat) (s : cpu_dbs_info_s)
    (hen : s.enable ≠ 0)
    (hlo : s.cur_policy.min ≤ s.requested_freq)
    (hhi : s.requested_freq ≤ s.cur_policy.max)
    (hmax : s.cur_policy.max < 2147483648)
    (hsleep : suspended ≠ 0 → s.cur_policy.min ≤ FREQ_SLEEP_MAX)
    (hawake : suspended = 0 → FREQ_AWAKE_MIN ≤ s.cur_policy.max) :
    s.cur_policy.min
        ≤ (dbs_check_cpu usecs_to_jiffies t suspended total_idle_ticks s).1.requested_freq ∧
      (dbs_check_cpu usecs_to_jiffies t suspended total_idle_ticks s).1.requested_freq
        ≤ s.cur_policy.max := by
  unfold dbs_check_cpu
  simp only [hen, if_false]
  split_ifs with hup
  · exact dbs_check_up_range suspended { s with prev_cpu_idle_up := total_idle_ticks }
      hlo hhi hmax hsleep hawake
  · unfold dbs_check_down
    simp only []
    split_ifs
    all_goals first
      | exact ⟨hlo, hhi⟩
      | exact dbs_check_lower_range suspended
          { s with prev_cpu_idle_up := total_idle_ticks, prev_cpu_idle_down := total_idle_ticks,
                   down_skip := 0 } hlo hhi hsleep hawake

/-- C1 (witness): the scenario policy `[200000, 1000000]`, awake, a busy CPU
requesting 300000. -/
theorem dbs_check_cpu_requested_freq_range_witness :
    200000 ≤ (dbs_check_cpu usecs_to_jiffies_10ms scenario_tuners 0 1003
        (scenario_cpu 200000 1000000 1000 300000)).1.requested_freq ∧
      (dbs_check_cpu usecs_to_jiffies_10ms scenario_tuners 0 1003
        (scenario_cpu 200000 1000000 1000 300000)).1.requested_freq ≤ 1000000 :=
  dbs_check_cpu_requested_freq_range usecs_to_jiffies_10ms scenario_tuners 0 1003
    (scenario_cpu 200000 1000000 1000 300000) (by decide) (by decide) (by decide)
    (by decide) (by decide) (by decide)

/-- C1 (counterexample): an enabled, awake, busy CPU with policy
`[200000, 400000]` and `requested_freq = 300000` inside it; the up-branch
caps the sum at `policy.max = 400000` and the awake floor then raises it to
480000, above `policy.max`. -/
theorem dbs_check_cpu_awake_floor_above_policy_max :
    (scenario_cpu 200000 400000 1000 300000).enable ≠ 0 ∧
      (scenario_cpu 200000 400000 1000 300000).cur_policy.min
        ≤ (scenario_cpu 200000 400000 1000 300000).cur_policy.max ∧
      (scenario_cpu 200000 400000 1000 300000).cur_policy.min
        ≤ (scenario_cpu 200000 400000 1000 300000).requested_freq ∧
      (scenario_cpu 200000 400000 1000 300000).requested_freq
        ≤ (scenario_cpu 200000 400000 1000 300000).cur_policy.max ∧
      (dbs_check_cpu usecs_to_jiffies_10ms scenario_tuners 0 1003
        (scenario_cpu 200000 400000 1000 300000)).1.requested_freq = 480000 ∧
      ¬ ((dbs_check_cpu usecs_to_jiffies_10ms scenario_tuners 0 1003
        (scenario_cpu 200000 400000 1000 300000)).1.requested_freq
          ≤ (scenario_cpu 200000 400000 1000 300000).cur_policy.max) := by
  decide

/-! ## The up-decision -/

/-- C2 (amended): for an enabled CPU, when `suspended` is false, the
up-condition holds and `requested_freq + policy.max` does not wrap 32 bits,
`requested_freq` after `dbs_check_cpu` is `policy.max` when
`policy.max ≥ FREQ_AWAKE_MIN` or when `requested_freq` already was
`policy.max` (the early exit, which skips the awake floor), and
`FREQ_AWAKE_MIN` otherwise. -/
theorem dbs_check_cpu_awake_up (usecs_to_jiffies : Nat → Nat) (t : dbs_tuners)
    (total_idle_ticks : Nat) (s : cpu_dbs_info_s)
    (hen : s.enable ≠ 0)
    (hup : up_condition usecs_to_jiffies t total_idle_ticks s)
    (hwrap : s.requested_freq + s.cur_policy.max < U32) :
    (dbs_check_cpu usecs_to_jiffies t 0 total_idle_ticks s).1.requested_freq =
      if s.requested_freq = s.cur_policy.max ∨ FREQ_AWAKE_MIN ≤ s.cur_policy.max
      then s.cur_policy.max else FREQ_AWAKE_MIN := by
  rw [dbs_check_cpu_of_up usecs_to_jiffies t 0 total_idle_ticks s hen hup]
  unfold dbs_check_up FREQ_AWAKE_MIN
  unfold U32 at hwrap ⊢
  simp only []
  split_ifs <;> simp at * <;> omega

/-- C2 (witness): thresholds 50 and 15, policy `[200000, 1000000]`, awake, a
busy CPU: the first tick requests 1000000. -/
theorem dbs_check_cpu_awake_up_witness :
    up_condition usecs_to_jiffies_10ms scenario_tuners 1003
        (scenario_cpu 200000 1000000 1000 300000) ∧
      (dbs_check_cpu usecs_to_jiffies_10ms scenario_tuners 0 1003
        (scenario_cpu 200000 1000000 1000 300000)).1.requested_freq = 1000000 :=
  ⟨by decide,
    (dbs_check_cpu_awake_up usecs_to_jiffies_10ms scenario_tuners 1003
      (scenario_cpu 200000 1000000 1000 300000) (by decide) (by decide) (by decide)).trans
      (by decide)⟩

/-- C2 (counterexample): an enabled, awake, busy CPU with `policy.max = 400000`
below `FREQ_AWAKE_MIN` that already requests `policy.max`: the early exit
leaves `requested_freq` at 400000, not at `FREQ_AWAKE_MIN`, and issues no
request. -/
theorem dbs_check_cpu_awake_early_exit_below_floor :
    (scenario_cpu 200000 400000 1000 400000).enable ≠ 0 ∧
      up_condition usecs_to_jiffies_10ms scenario_tuners 1003
        (scenario_cpu 200000 400000 1000 400000) ∧
      ¬ (FREQ_AWAKE_MIN ≤ (scenario_cpu 200000 400000 1000 400000).cur_policy.max) ∧
      (dbs_check_cpu usecs_to_jiffies_10ms scenario_tuners 0 1003
        (scenario_cpu 200000 400000 1000 400000)).1.requested_freq = 400000 ∧
      (dbs_check_cpu usecs_to_jiffies_10ms scenario_tuners 0 1003
        (scenario_cpu 200000 400000 1000 400000)).1.requested_freq ≠ FREQ_AWAKE_MIN ∧
      (dbs_check_cpu usecs_to_jiffies_10ms scenario_tuners 0 1003
        (scenario_cpu 200000 400000 1000 400000)).2 = none := by
  decide

/-- C3 (amended): for an enabled CPU, when `suspended` is true and the
up-condition holds, `requested_freq` after `dbs_check_cpu` exceeds the value
before it by at most the step, which is `(20 * policy.max) / 100`, or 5 when
that quotient is zero (`policy.max < 5`). -/
theorem dbs_check_cpu_suspended_up_step (usecs_to_jiffies : Nat → Nat) (t : dbs_tuners)
    (suspended total_idle_ticks : Nat) (s : cpu_dbs_info_s)
    (hen : s.enable ≠ 0)
    (hs : suspended ≠ 0)
    (hup : up_condition usecs_to_jiffies t total_idle_ticks s) :
    (dbs_check_cpu usecs_to_jiffies t suspended total_idle_ticks s).1.requested_freq ≤
      s.requested_freq +
        (if (FREQ_STEP_UP_SLEEP_PERCENT * s.cur_policy.max) / 100 = 0 then 5
         else (FREQ_STEP_UP_SLEEP_PERCENT * s.cur_policy.max) / 100) := by
  rw [dbs_check_cpu_of_up usecs_to_jiffies t suspended total_idle_ticks s hen hup]
  unfold dbs_check_up FREQ_STEP_UP_SLEEP_PERCENT FREQ_SLEEP_MAX FREQ_AWAKE_MIN U32
  have hft : 20 * s.cur_policy.max % 4294967296 / 100 ≤ 20 * s.cur_policy.max / 100 :=
    Nat.div_le_div_right (Nat.mod_le _ _)
  have hbig : 20 * s.cur_policy.max % 4294967296 / 100 = 20 * s.cur_policy.max / 100 ∨
      5 ≤ 20 * s.cur_policy.max / 100 := by
    by_cases hlt : 20 * s.cur_policy.max < 4294967296
    · left; rw [Nat.mod_eq_of_lt hlt]
    · right; omega
  simp only [hs]
  generalize 20 * s.cur_policy.max % 4294967296 / 100 = d at hft hbig ⊢
  generalize 20 * s.cur_policy.max / 100 = e at hft hbig ⊢
  split_ifs <;> simp at * <;> omega

/-- C3 (witness): suspended, policy `[200000, 1000000]`, a busy CPU requesting
200000: the request rises by at most 200000. -/
theorem dbs_check_cpu_suspended_up_step_witness :
    (dbs_check_cpu usecs_to_jiffies_10ms scenario_tuners 1 1003
        (scenario_cpu 200000 1000000 1000 200000)).1.requested_freq ≤ 200000 + 200000 :=
  dbs_check_cpu_suspended_up_step usecs_to_jiffies_10ms scenario_tuners 1 1003
    (scenario_cpu 200000 1000000 1000 200000) (by decide) (by decide) (by decide)

/-- C3 (counterexample): suspended, policy `[0, 4]`, a busy CPU requesting 0;
20% of `policy.max` is 0, the step is forced to 5 and the request becomes
`policy.max = 4`, which exceeds `0 + (20 * 4) / 100 = 0`. -/
theorem dbs_check_cpu_suspended_forced_step :
    (scenario_cpu 0 4 1000 0).enable ≠ 0 ∧
      up_condition usecs_to_jiffies_10ms scenario_tuners 1003 (scenario_cpu 0 4 1000 0) ∧
      (dbs_check_cpu usecs_to_jiffies_10ms scenario_tuners 1 1003
        (scenario_cpu 0 4 1000 0)).1.requested_freq = 4 ∧
      ¬ ((dbs_check_cpu usecs_to_jiffies_10ms scenario_tuners 1 1003
          (scenario_cpu 0 4 1000 0)).1.requested_freq
        ≤ (scenario_cpu 0 4 1000 0).requested_freq
          + (20 * (scenario_cpu 0 4 1000 0).cur_policy.max) / 100) := by
  decide

/-! ## The regime clamp -/

/-- A request of the up-branch respects the regime clamp and is the stored
`requested_freq`. -/
theorem dbs_check_up_clamp (suspended : Nat) (s : cpu_dbs_info_s) (f : Nat)
    (h : (dbs_check_up suspended s).2 = some f) :
    (dbs_check_up suspended s).1.requested_freq = f ∧
      (suspended ≠ 0 → f ≤ FREQ_SLEEP_MAX) ∧ (suspended = 0 → FREQ_AWAKE_MIN ≤ f) := by
  unfold dbs_check_up at h ⊢
  unfold FREQ_SLEEP_MAX FREQ_AWAKE_MIN at h ⊢
  simp only [] at h ⊢
  split_ifs at h ⊢ <;> simp at * <;> omega

/-- A request of the lowering branch respects the regime clamp and is the
stored `requested_freq`. -/
theorem dbs_check_lower_clamp (suspended : Nat) (s : cpu_dbs_info_s) (f : Nat)
    (h : (dbs_check_lower suspended s).2 = some f) :
    (dbs_check_lower suspended s).1.requested_freq = f ∧
      (suspended ≠ 0 → f ≤ FREQ_SLEEP_MAX) ∧ (suspended = 0 → FREQ_AWAKE_MIN ≤ f) := by
  unfold dbs_check_lower at h ⊢
  unfold FREQ_SLEEP_MAX FREQ_AWAKE_MIN at h ⊢
  simp only [] at h ⊢
  split_ifs at h ⊢ <;> simp at * <;> omega

/-- C4: every request that `dbs_check_cpu` issues, in the up-phase or in the
down-phase, is the stored `requested_freq` and respects the regime clamp: it
is at most `FREQ_SLEEP_MAX` when suspended and at least `FREQ_AWAKE_MIN` when
awake, for every policy, tunable setting, idle reading and prior state. -/
theorem dbs_check_cpu_request_regime_clamp (usecs_to_jiffies : Nat → Nat) (t : dbs_tuners)
    (suspended total_idle_ticks : Nat) (s : cpu_dbs_info_s) (f : Nat)
    (h : (dbs_check_cpu usecs_to_jiffies t suspended total_idle_ticks s).2 = some f) :
    (dbs_check_cpu usecs_to_jiffies t suspended total_idle_ticks s).1.requested_freq = f ∧
      (suspended ≠ 0 → f ≤ FREQ_SLEEP_MAX) ∧ (suspended = 0 → FREQ_AWAKE_MIN ≤ f) := by
  unfold dbs_check_cpu at h ⊢
  unfold dbs_check_down at h ⊢
  simp only [] at h ⊢
  split_ifs at h ⊢
  all_goals first
    | exact absurd h (by simp)
    | exact dbs_check_up_clamp suspended _ f h
    | exact dbs_check_lower_clamp suspended _ f h

/-- C4 (witness): suspended, a fully idle CPU at the fourth tick of the down
window requesting 600000: the down-phase request is 320000. -/
theorem dbs_check_cpu_request_regime_clamp_witness :
    (dbs_check_cpu usecs_to_jiffies_10ms scenario_tuners 1 1040
        { scenario_cpu 200000 1000000 1030 600000 with
          prev_cpu_idle_down := 1000, down_skip := 3 }).2 = some 320000 ∧
      (dbs_check_cpu usecs_to_jiffies_10ms scenario_tuners 1 1040
        { scenario_cpu 200000 1000000 1030 600000 with
          prev_cpu_idle_down := 1000, down_skip := 3 }).1.requested_freq = 320000 ∧
      ((1 : Nat) ≠ 0 → 320000 ≤ FREQ_SLEEP_MAX) ∧ ((1 : Nat) = 0 → FREQ_AWAKE_MIN ≤ 320000) :=
  ⟨by decide,
    dbs_check_cpu_request_regime_clamp usecs_to_jiffies_10ms scenario_tuners 1 1040
      { scenario_cpu 200000 1000000 1030 600000 with
        prev_cpu_idle_down := 1000, down_skip := 3 } 320000 (by decide)⟩

/-! ## The tunables -/

/-- A property of the tunables that every single write preserves holds after
every sequence of writes. -/
theorem tunable_stores_preserves (def_sampling_rate : Nat) (cpu_online : Nat → Bool)
    (P : dbs_tuners → Prop)
    (hstep : ∀ (st : dbs_state) (w : tunable_write), P st.tuners →
      P (tunable_store def_sampling_rate cpu_online st w).1.tuners) :
    ∀ (ws : List tunable_write) (st : dbs_state), P st.tuners →
      P (tunable_stores def_sampling_rate cpu_online st ws).tuners := by
  intro ws
  induction ws with
  | nil => intro st h; exact h
  | cons w ws ih =>
    intro st h
    exact ih _ (hstep st w h)

/-- A single write keeps `down_threshold < up_threshold ≤ 100`. -/
theorem tunable_store_thresholds (def_sampling_rate : Nat) (cpu_online : Nat → Bool)
    (st : dbs_state) (w : tunable_write)
    (h : st.tuners.down_threshold < st.tuners.up_threshold ∧ st.tuners.up_threshold ≤ 100) :
    (tunable_store def_sampling_rate cpu_online st w).1.tuners.down_threshold
        < (tunable_store def_sampling_rate cpu_online st w).1.tuners.up_threshold ∧
      (tunable_store def_sampling_rate cpu_online st w).1.tuners.up_threshold ≤ 100 := by
  cases w <;>
    simp only [tunable_store, store_sampling_rate, store_sampling_down_factor,
      store_up_threshold, store_down_threshold, store_ignore_nice_load] <;>
    split_ifs <;> simp at * <;> omega

/-- A single write keeps `sampling_down_factor` in `[1, 10]`. -/
theorem tunable_store_down_factor (def_sampling_rate : Nat) (cpu_online : Nat → Bool)
    (st : dbs_state) (w : tunable_write)
    (h : 1 ≤ st.tuners.sampling_down_factor ∧ st.tuners.sampling_down_factor ≤ 10) :
    1 ≤ (tunable_store def_sampling_rate cpu_online st w).1.tuners.sampling_down_factor ∧
      (tunable_store def_sampling_rate cpu_online st w).1.tuners.sampling_down_factor ≤ 10 := by
  cases w <;>
    simp only [tunable_store, store_sampling_rate, store_sampling_down_factor,
      store_up_threshold, store_down_threshold, store_ignore_nice_load,
      MAX_SAMPLING_DOWN_FACTOR] <;>
    split_ifs <;> simp at * <;> omega

/-- C5: starting from the default tunables (`up_threshold` 50, `down_threshold`
15), after any sequence of writes to `sampling_rate`, `sampling_down_factor`,
`up_threshold`, `down_threshold` and `ignore_nice_load`, accepted or rejected,
`up_threshold > down_threshold` holds and both are at most 100. -/
theorem tunable_stores_up_above_down (def_sampling_rate : Nat) (cpu_online : Nat → Bool)
    (cpus : List cpu_dbs_info_s) (ws : List tunable_write) :
    (tunable_stores def_sampling_rate cpu_online
        { tuners := dbs_tuners_ins, cpu_dbs_info := cpus } ws).tuners.up_threshold
      > (tunable_stores def_sampling_rate cpu_online
        { tuners := dbs_tuners_ins, cpu_dbs_info := cpus } ws).tuners.down_threshold ∧
    (tunable_stores def_sampling_rate cpu_online
        { tuners := dbs_tuners_ins, cpu_dbs_info := cpus } ws).tuners.up_threshold ≤ 100 ∧
    (tunable_stores def_sampling_rate cpu_online
        { tuners := dbs_tuners_ins, cpu_dbs_info := cpus } ws).tuners.down_threshold ≤ 100 := by
  have h := tunable_stores_preserves def_sampling_rate cpu_online
    (fun t => t.down_threshold < t.up_threshold ∧ t.up_threshold ≤ 100)
    (fun st w hst => tunable_store_thresholds def_sampling_rate cpu_online st w hst)
    ws { tuners := dbs_tuners_ins, cpu_dbs_info := cpus }
    (by simp [dbs_tuners_ins, DEF_FREQUENCY_UP_THRESHOLD, DEF_FREQUENCY_DOWN_THRESHOLD])
  simp only [] at h
  omega

/-- C6: a write to `sampling_rate`, `sampling_down_factor`, `up_threshold`,
`down_threshold` or `ignore_nice_load` that returns `-EINVAL` leaves the
tunables and the whole per-CPU array exactly as they were, and a write whose
input does not parse (`sscanf` does not return 1) returns `-EINVAL`. -/
theorem tunable_store_rejected_unchanged (def_sampling_rate : Nat) (cpu_online : Nat → Bool)
    (st : dbs_state) (w : tunable_write) :
    ((tunable_store def_sampling_rate cpu_online st w).2 = -EINVAL →
        (tunable_store def_sampling_rate cpu_online st w).1 = st) ∧
      (w.ret ≠ 1 → (tunable_store def_sampling_rate cpu_online st w).2 = -EINVAL) := by
  cases w <;>
    simp only [tunable_store, tunable_write.ret, store_sampling_rate,
      store_sampling_down_factor, store_up_threshold, store_down_threshold,
      store_ignore_nice_load, EINVAL] <;>
    split_ifs <;> simp at * <;> omega

/-- C6 (witness): from the defaults, writing 10 to `up_threshold` (not above
`down_threshold` 15) and an unparsable write to `sampling_rate` are rejected
and change nothing. -/
theorem tunable_store_rejected_unchanged_witness :
    (tunable_store 20000 (fun _ => true)
        { tuners := dbs_tuners_ins, cpu_dbs_info := [scenario_cpu 200000 1000000 1000 300000] }
        (.up_threshold 1 10 3)).2 = -EINVAL ∧
      (tunable_store 20000 (fun _ => true)
        { tuners := dbs_tuners_ins, cpu_dbs_info := [scenario_cpu 200000 1000000 1000 300000] }
        (.up_threshold 1 10 3)).1
        = { tuners := dbs_tuners_ins,
            cpu_dbs_info := [scenario_cpu 200000 1000000 1000 300000] } ∧
      (tunable_store 20000 (fun _ => true)
        { tuners := dbs_tuners_ins, cpu_dbs_info := [scenario_cpu 200000 1000000 1000 300000] }
        (.sampling_rate 0 30000 6)).2 = -EINVAL :=
  ⟨by decide,
    (tunable_store_rejected_unchanged 20000 (fun _ => true)
      { tuners := dbs_tuners_ins, cpu_dbs_info := [scenario_cpu 200000 1000000 1000 300000] }
      (.up_threshold 1 10 3)).1 (by decide),
    (tunable_store_rejected_unchanged 20000 (fun _ => true)
      { tuners := dbs_tuners_ins, cpu_dbs_info := [scenario_cpu 200000 1000000 1000 300000] }
      (.sampling_rate 0 30000 6)).2 (by decide)⟩

/-- C7: a write of a parsed value `n` to `up_threshold` is rejected exactly
when `n > 100` or `n ≤ down_threshold`, and otherwise sets `up_threshold` to
`n` and changes nothing else; a write of `n` to `down_threshold` is rejected
exactly when `n > 100` or `n ≥ up_threshold`, and otherwise sets
`down_threshold` to `n` and changes nothing else. -/
theorem store_threshold_accept_reject (st : dbs_state) (n count : Nat) :
    ((store_up_threshold st 1 n count).2 = -EINVAL ↔
        (n > 100 ∨ n ≤ st.tuners.down_threshold)) ∧
      store_up_threshold st 1 n count =
        (if n > 100 ∨ n ≤ st.tuners.down_threshold then (st, -EINVAL)
         else ({ st with tuners := { st.tuners with up_threshold := n } }, (count : Int))) ∧
      ((store_down_threshold st 1 n count).2 = -EINVAL ↔
        (n > 100 ∨ n ≥ st.tuners.up_threshold)) ∧
      store_down_threshold st 1 n count =
        (if n > 100 ∨ n ≥ st.tuners.up_threshold then (st, -EINVAL)
         else ({ st with tuners := { st.tuners with down_threshold := n } }, (count : Int))) := by
  have hc : (count : Int) ≠ -22 := by omega
  refine ⟨?_, ?_, ?_, ?_⟩
  · unfold store_up_threshold EINVAL
    split_ifs with h
    · simp at h; simp; omega
    · simp at h; simp; omega
  · unfold store_up_threshold
    simp
  · unfold store_down_threshold EINVAL
    split_ifs with h
    · simp at h; simp; omega
    · simp at h; simp; omega
  · unfold store_down_threshold
    simp

/-- A write of a parsed value `n` to `sampling_rate` is accepted exactly when
`n` lies between the two values the macros compute in `unsigned int`. -/
theorem store_sampling_rate_eq (def_sampling_rate : Nat) (st : dbs_state) (n count : Nat) :
    store_sampling_rate def_sampling_rate st 1 n count =
      (if def_sampling_rate / 2 ≤ n ∧ n ≤ (500 * def_sampling_rate) % U32
       then ({ st with tuners := { st.tuners with sampling_rate := n } }, (count : Int))
       else (st, -EINVAL)) := by
  unfold store_sampling_rate MAX_SAMPLING_RATE MIN_SAMPLING_RATE MIN_SAMPLING_RATE_RATIO
  by_cases h : def_sampling_rate / 2 ≤ n ∧ n ≤ (500 * def_sampling_rate) % U32
  · have h1 : ¬ ((1 : Int) ≠ 1 ∨ n > (500 * def_sampling_rate) % U32
        ∨ n < def_sampling_rate / 2) := by omega
    rw [if_neg h1, if_pos h]
  · have h1 : ((1 : Int) ≠ 1 ∨ n > (500 * def_sampling_rate) % U32
        ∨ n < def_sampling_rate / 2) := by omega
    rw [if_pos h1, if_neg h]

/-- C8 (amended): for every baseline `def_sampling_rate` with
`500 * def_sampling_rate < 2^32` and every parsed value `n`, a write of `n` to
`sampling_rate` is accepted (`sampling_rate` becomes `n`, nothing else
changes) exactly when `def_sampling_rate / 2 ≤ n ≤ 500 * def_sampling_rate`,
and is rejected otherwise; `sampling_rate_min` and `sampling_rate_max` report
exactly those two bounds. -/
theorem store_sampling_rate_bounds (def_sampling_rate : Nat) (st : dbs_state)
    (n count : Nat) (hmax : 500 * def_sampling_rate < U32) :
    ((store_sampling_rate def_sampling_rate st 1 n count).2 = -EINVAL ↔
        ¬ (def_sampling_rate / 2 ≤ n ∧ n ≤ 500 * def_sampling_rate)) ∧
      store_sampling_rate def_sampling_rate st 1 n count =
        (if def_sampling_rate / 2 ≤ n ∧ n ≤ 500 * def_sampling_rate
         then ({ st with tuners := { st.tuners with sampling_rate := n } }, (count : Int))
         else (st, -EINVAL)) ∧
      show_sampling_rate_min def_sampling_rate = def_sampling_rate / 2 ∧
      show_sampling_rate_max def_sampling_rate = 500 * def_sampling_rate := by
  have hc : (count : Int) ≠ -22 := by omega
  have hmod : (500 * def_sampling_rate) % U32 = 500 * def_sampling_rate :=
    Nat.mod_eq_of_lt hmax
  have heq := store_sampling_rate_eq def_sampling_rate st n count
  rw [hmod] at heq
  refine ⟨?_, heq, rfl, ?_⟩
  · rw [heq]
    unfold EINVAL
    split_ifs with h
    · simp; omega
    · simp; omega
  · unfold show_sampling_rate_max MAX_SAMPLING_RATE
    exact hmod

/-- C8 (witness): with the baseline 20000, for which `500 * 20000 < 2^32`, the
bounds are 10000 and 10000000; a write of 100000 is accepted and a write of
9999 is rejected. -/
theorem store_sampling_rate_bounds_witness :
    500 * 20000 < U32 ∧
      show_sampling_rate_min 20000 = 10000 ∧ show_sampling_rate_max 20000 = 10000000 ∧
      (store_sampling_rate 20000 { tuners := dbs_tuners_ins, cpu_dbs_info := [] }
        1 100000 7).1.tuners.sampling_rate = 100000 ∧
      (store_sampling_rate 20000 { tuners := dbs_tuners_ins, cpu_dbs_info := [] }
        1 9999 5).2 = -EINVAL :=
  ⟨by decide,
    (store_sampling_rate_bounds 20000 { tuners := dbs_tuners_ins, cpu_dbs_info := [] }
      100000 7 (by decide)).2.2.1,
    (store_sampling_rate_bounds 20000 { tuners := dbs_tuners_ins, cpu_dbs_info := [] }
      100000 7 (by decide)).2.2.2,
    by decide, by decide⟩

/-- C8 (counterexample): with the baseline 8589935, `500 * def_sampling_rate`
is 4294967500, which wraps to 204 in `unsigned int`; a write of 5000000 lies
in `[def_sampling_rate / 2, 500 * def_sampling_rate]` and is rejected, and
`sampling_rate_max` reports 204. -/
theorem store_sampling_rate_wrapped_maximum :
    8589935 / 2 ≤ 5000000 ∧ 5000000 ≤ 500 * 8589935 ∧
      (store_sampling_rate 8589935 { tuners := dbs_tuners_ins, cpu_dbs_info := [] }
        1 5000000 8).2 = -EINVAL ∧
      show_sampling_rate_max 8589935 = 204 ∧
      show_sampling_rate_max 8589935 ≠ 500 * 8589935 := by
  decide

/-- C9: a write of a parsed value `n` to `sampling_down_factor` is accepted
(`sampling_down_factor` becomes `n`, nothing else changes) exactly when
`1 ≤ n ≤ 10` and is rejected otherwise; from the default 4,
`sampling_down_factor` is in `[1, 10]` after any sequence of tunable writes. -/
theorem store_sampling_down_factor_range (def_sampling_rate : Nat) (cpu_online : Nat → Bool)
    (st : dbs_state) (n count : Nat) (cpus : List cpu_dbs_info_s)
    (ws : List tunable_write) :
    ((store_sampling_down_factor st 1 n count).2 = -EINVAL ↔ ¬ (1 ≤ n ∧ n ≤ 10)) ∧
      store_sampling_down_factor st 1 n count =
        (if 1 ≤ n ∧ n ≤ 10
         then ({ st with tuners := { st.tuners with sampling_down_factor := n } },
           (count : Int))
         else (st, -EINVAL)) ∧
      1 ≤ (tunable_stores def_sampling_rate cpu_online
          { tuners := dbs_tuners_ins, cpu_dbs_info := cpus } ws).tuners.sampling_down_factor ∧
      (tunable_stores def_sampling_rate cpu_online
          { tuners := dbs_tuners_ins, cpu_dbs_info := cpus } ws).tuners.sampling_down_factor
        ≤ 10 := by
  have hc : (count : Int) ≠ -22 := by omega
  refine ⟨?_, ?_, ?_⟩
  · unfold store_sampling_down_factor MAX_SAMPLING_DOWN_FACTOR EINVAL
    split_ifs with h
    · simp at h; simp; omega
    · simp at h; simp; omega
  · unfold store_sampling_down_factor MAX_SAMPLING_DOWN_FACTOR
    by_cases h : 1 ≤ n ∧ n ≤ 10
    · have h1 : ¬ ((1 : Int) ≠ 1 ∨ n > 10 ∨ n < 1) := by omega
      rw [if_neg h1, if_pos h]
    · have h1 : ((1 : Int) ≠ 1 ∨ n > 10 ∨ n < 1) := by omega
      rw [if_pos h1, if_neg h]
  · exact tunable_stores_preserves def_sampling_rate cpu_online
      (fun t => 1 ≤ t.sampling_down_factor ∧ t.sampling_down_factor ≤ 10)
      (fun st w hst => tunable_store_down_factor def_sampling_rate cpu_online st w hst)
      ws { tuners := dbs_tuners_ins, cpu_dbs_info := cpus }
      (by simp [dbs_tuners_ins, DEF_SAMPLING_DOWN_FACTOR])

/-- C10: writing `ignore_nice_load` with a value that, after values above 1
are taken as 1, equals the current `ignore_nice` returns success (the byte
count) and leaves the tunables and every per-CPU state, so every
`prev_cpu_idle_down`, unchanged. -/
theorem store_ignore_nice_load_same_value (cpu_online : Nat → Bool) (st : dbs_state)
    (input count : Nat)
    (h : (if input > 1 then 1 else input) = st.tuners.ignore_nice) :
    store_ignore_nice_load cpu_online st 1 input count = (st, (count : Int)) := by
  unfold store_ignore_nice_load
  simp only [ne_eq, not_true_eq_false, if_false, h, if_true]

/-- C10 (witness): with `ignore_nice` 1 (the default) and one online CPU whose
two idle snapshots differ, writing 7 succeeds and changes nothing. -/
theorem store_ignore_nice_load_same_value_witness :
    store_ignore_nice_load (fun _ => true)
        { tuners := dbs_tuners_ins,
          cpu_dbs_info := [{ scenario_cpu 200000 1000000 1030 600000 with
            prev_cpu_idle_down := 1000 }] } 1 7 2
      = ({ tuners := dbs_tuners_ins,
           cpu_dbs_info := [{ scenario_cpu 200000 1000000 1030 600000 with
             prev_cpu_idle_down := 1000 }] }, 2) :=
  store_ignore_nice_load_same_value (fun _ => true)
    { tuners := dbs_tuners_ins,
      cpu_dbs_info := [{ scenario_cpu 200000 1000000 1030 600000 with
        prev_cpu_idle_down := 1000 }] } 7 2 (by decide)

/-! ## The paths of `dbs_check_cpu` -/

/-- On an enabled CPU for which the up-condition fails and the incremented
counter is below the factor, the tick only stores the idle reading and the
incremented counter. -/
theorem dbs_check_cpu_of_skip (usecs_to_jiffies : Nat → Nat) (t : dbs_tuners)
    (suspended total_idle_ticks : Nat) (s : cpu_dbs_info_s) (hen : s.enable ≠ 0)
    (hup : ¬ up_condition usecs_to_jiffies t total_idle_ticks s)
    (hskip : (s.down_skip + 1) % U32 < t.sampling_down_factor) :
    dbs_check_cpu usecs_to_jiffies t suspended total_idle_ticks s =
      ({ s with prev_cpu_idle_up := total_idle_ticks,
                down_skip := (s.down_skip + 1) % U32 }, none) := by
  unfold up_condition at hup
  unfold dbs_check_cpu dbs_check_down
  simp only [hen, if_false, hup, hskip, if_true]

/-- On a tick that takes the lowering branch, the step is the lowering branch
applied to the state the down evaluation leaves. -/
theorem dbs_check_cpu_of_lowering (usecs_to_jiffies : Nat → Nat) (t : dbs_tuners)
    (suspended total_idle_ticks : Nat) (s : cpu_dbs_info_s)
    (h : lowering_taken usecs_to_jiffies t total_idle_ticks s) :
    dbs_check_cpu usecs_to_jiffies t suspended total_idle_ticks s =
      dbs_check_lower suspended (down_evaluated_state total_idle_ticks s) := by
  obtain ⟨⟨hen, hup, hskip⟩, hlow⟩ := h
  unfold up_condition at hup
  unfold down_idle_scaled at hlow
  unfold dbs_check_cpu dbs_check_down down_evaluated_state
  simp only [hen, if_false, hup, hskip]
  simp only [] at hlow
  rw [if_pos hlow]

/-- On a tick that evaluates the down-check without taking the lowering
branch, the step is the state the down evaluation leaves, without a request. -/
theorem dbs_check_cpu_of_hold (usecs_to_jiffies : Nat → Nat) (t : dbs_tuners)
    (suspended total_idle_ticks : Nat) (s : cpu_dbs_info_s)
    (hev : down_evaluated usecs_to_jiffies t total_idle_ticks s)
    (hlow : ¬ lowering_taken usecs_to_jiffies t total_idle_ticks s) :
    dbs_check_cpu usecs_to_jiffies t suspended total_idle_ticks s =
      (down_evaluated_state total_idle_ticks s, none) := by
  have hlow2 : ¬ (down_idle_scaled total_idle_ticks s > down_idle_ticks usecs_to_jiffies t) :=
    fun h => hlow ⟨hev, h⟩
  obtain ⟨hen, hup, hskip⟩ := hev
  unfold up_condition at hup
  unfold down_idle_scaled at hlow2
  unfold dbs_check_cpu dbs_check_down down_evaluated_state
  simp only [hen, if_false, hup, hskip]
  simp only [] at hlow2
  rw [if_neg hlow2]

/-- Entry `j` of the array after the loop of lines 264-268 started at CPU
number `k`. -/
theorem rebaseline_online_getElem (cpu_online : Nat → Bool) :
    ∀ (xs : List cpu_dbs_info_s) (k j : Nat),
      (rebaseline_online cpu_online k xs)[j]? =
        (xs[j]?).map (fun x =>
          if cpu_online (k + j) then { x with prev_cpu_idle_down := x.prev_cpu_idle_up }
          else x) := by
  intro xs
  induction xs with
  | nil => intro k j; simp [rebaseline_online]
  | cons x xs ih =>
    intro k j
    cases j with
    | zero => simp [rebaseline_online]
    | succ j =>
      simp only [rebaseline_online, List.getElem?_cons_succ]
      rw [ih (k + 1) j]
      have hk : k + 1 + j = k + (j + 1) := by omega
      rw [hk]

/-- Entry `j` of the array after an update of the entry of CPU `cpu`. -/
theorem per_cpu_update_getElem (f : cpu_dbs_info_s → cpu_dbs_info_s) :
    ∀ (xs : List cpu_dbs_info_s) (cpu j : Nat),
      (per_cpu_update f xs cpu)[j]? =
        if j = cpu then (xs[j]?).map f else xs[j]? := by
  intro xs
  induction xs with
  | nil => intro cpu j; simp [per_cpu_update]
  | cons x xs ih =>
    intro cpu j
    cases cpu with
    | zero =>
      cases j with
      | zero => simp [per_cpu_update]
      | succ j => simp [per_cpu_update]
    | succ cpu =>
      cases j with
      | zero => simp [per_cpu_update]
      | succ j =>
        simp only [per_cpu_update, List.getElem?_cons_succ]
        rw [ih cpu j]
        simp

/-- An update of one entry whose function preserves a property of entries
preserves that property of every entry. -/
theorem per_cpu_update_forall (f : cpu_dbs_info_s → cpu_dbs_info_s)
    (P : cpu_dbs_info_s → Prop) (hf : ∀ x, P x → P (f x)) :
    ∀ (xs : List cpu_dbs_info_s) (cpu : Nat), (∀ x ∈ xs, P x) →
      ∀ y ∈ per_cpu_update f xs cpu, P y := by
  intro xs
  induction xs with
  | nil => intro cpu _ y hy; simp [per_cpu_update] at hy
  | cons x xs ih =>
    intro cpu h y hy
    cases cpu with
    | zero =>
      simp only [per_cpu_update, List.mem_cons] at hy
      rcases hy with rfl | hy
      · exact hf x (h x (List.mem_cons_self x xs))
      · exact h y (List.mem_cons_of_mem x hy)
    | succ cpu =>
      simp only [per_cpu_update, List.mem_cons] at hy
      rcases hy with rfl | hy
      · exact h y (List.mem_cons_self y xs)
      · exact ih cpu (fun z hz => h z (List.mem_cons_of_mem x hz)) y hy

/-- The loop of lines 264-268 changes no `down_skip`. -/
theorem rebaseline_online_forall (cpu_online : Nat → Bool) (P : cpu_dbs_info_s → Prop)
    (hP : ∀ x, P x → P { x with prev_cpu_idle_down := x.prev_cpu_idle_up }) :
    ∀ (xs : List cpu_dbs_info_s) (k : Nat), (∀ x ∈ xs, P x) →
      ∀ y ∈ rebaseline_online cpu_online k xs, P y := by
  intro xs
  induction xs with
  | nil => intro k _ y hy; simp [rebaseline_online] at hy
  | cons x xs ih =>
    intro k h y hy
    simp only [rebaseline_online, List.mem_cons] at hy
    rcases hy with rfl | hy
    · split_ifs
      · exact hP x (h x (List.mem_cons_self x xs))
      · exact h x (List.mem_cons_self x xs)
    · exact ih (k + 1) (fun z hz => h z (List.mem_cons_of_mem x hz)) y hy


/-! ## The write of a new `ignore_nice_load` -/

/-- C11: writing `ignore_nice_load` with a value that, after values above 1
are taken as 1, differs from the current `ignore_nice` returns the byte
count, sets `ignore_nice` to the new value (0 or 1) and leaves the other
tunables unchanged; every CPU keeps `prev_cpu_idle_up`, `down_skip`,
`requested_freq`, `enable` and its policy; every online CPU gets
`prev_cpu_idle_down` equal to its `prev_cpu_idle_up`, and a CPU that is not
online is unchanged. -/
theorem store_ignore_nice_load_new_value (cpu_online : Nat → Bool) (st : dbs_state)
    (input count : Nat)
    (h : (if input > 1 then 1 else input) ≠ st.tuners.ignore_nice) :
    (store_ignore_nice_load cpu_online st 1 input count).2 = (count : Int) ∧
      (store_ignore_nice_load cpu_online st 1 input count).1.tuners =
        { st.tuners with ignore_nice := if input > 1 then 1 else input } ∧
      (store_ignore_nice_load cpu_online st 1 input count).1.tuners.ignore_nice ≤ 1 ∧
      ∀ (j : Nat) (x : cpu_dbs_info_s), st.cpu_dbs_info[j]? = some x →
        ∃ y, (store_ignore_nice_load cpu_online st 1 input count).1.cpu_dbs_info[j]? = some y ∧
          y.prev_cpu_idle_up = x.prev_cpu_idle_up ∧ y.down_skip = x.down_skip ∧
          y.requested_freq = x.requested_freq ∧ y.enable = x.enable ∧
          y.cur_policy = x.cur_policy ∧
          (cpu_online j = true → y.prev_cpu_idle_down = x.prev_cpu_idle_up) ∧
          (cpu_online j = false → y = x) := by
  unfold store_ignore_nice_load
  simp only [ne_eq, not_true_eq_false, if_false, h]
  refine ⟨trivial, trivial, ?_, ?_⟩
  · split_ifs <;> omega
  · intro j x hx
    rw [rebaseline_online_getElem cpu_online st.cpu_dbs_info 0 j, hx]
    simp only [Option.map_some', Nat.zero_add]
    by_cases hon : cpu_online j = true
    · exact ⟨_, rfl, by simp [hon]⟩
    · simp only [Bool.not_eq_true] at hon
      exact ⟨_, rfl, by simp [hon]⟩

/-- C11 (witness): from the defaults (`ignore_nice` 1), writing 0 with CPU 0
online and CPU 1 not online: `ignore_nice` becomes 0, CPU 0 gets
`prev_cpu_idle_down = prev_cpu_idle_up = 1030`, CPU 1 keeps 1000. -/
theorem store_ignore_nice_load_new_value_witness :
    (store_ignore_nice_load (fun j => decide (j = 0))
        { tuners := dbs_tuners_ins,
          cpu_dbs_info :=
            [{ scenario_cpu 200000 1000000 1030 600000 with prev_cpu_idle_down := 1000 },
             { scenario_cpu 200000 1000000 1030 600000 with prev_cpu_idle_down := 1000 }] }
        1 0 2).1.tuners = { dbs_tuners_ins with ignore_nice := 0 } ∧
      (store_ignore_nice_load (fun j => decide (j = 0))
        { tuners := dbs_tuners_ins,
          cpu_dbs_info :=
            [{ scenario_cpu 200000 1000000 1030 600000 with prev_cpu_idle_down := 1000 },
             { scenario_cpu 200000 1000000 1030 600000 with prev_cpu_idle_down := 1000 }] }
        1 0 2).1.cpu_dbs_info =
        [scenario_cpu 200000 1000000 1030 600000,
         { scenario_cpu 200000 1000000 1030 600000 with prev_cpu_idle_down := 1000 }] :=
  ⟨(store_ignore_nice_load_new_value (fun j => decide (j = 0))
      { tuners := dbs_tuners_ins,
        cpu_dbs_info :=
          [{ scenario_cpu 200000 1000000 1030 600000 with prev_cpu_idle_down := 1000 },
           { scenario_cpu 200000 1000000 1030 600000 with prev_cpu_idle_down := 1000 }] }
      0 2 (by decide)).2.1,
    by decide⟩


/-! ## The hysteresis of the down-check -/

/-- The lowering branch changes no field other than `requested_freq`. -/
theorem dbs_check_lower_frame (suspended : Nat) (s : cpu_dbs_info_s) :
    (dbs_check_lower suspended s).1 =
      { s with requested_freq := (dbs_check_lower suspended s).1.requested_freq } := by
  unfold dbs_check_lower
  simp only []
  split_ifs <;> rfl

/-- A tick that evaluates the down-check ends with `down_skip = 0` and with
both idle snapshots equal to the idle reading. -/
theorem dbs_check_cpu_down_evaluated_resets (usecs_to_jiffies : Nat → Nat) (t : dbs_tuners)
    (suspended total_idle_ticks : Nat) (s : cpu_dbs_info_s)
    (h : down_evaluated usecs_to_jiffies t total_idle_ticks s) :
    (dbs_check_cpu usecs_to_jiffies t suspended total_idle_ticks s).1.down_skip = 0 ∧
      (dbs_check_cpu usecs_to_jiffies t suspended total_idle_ticks s).1.prev_cpu_idle_down
        = total_idle_ticks ∧
      (dbs_check_cpu usecs_to_jiffies t suspended total_idle_ticks s).1.prev_cpu_idle_up
        = total_idle_ticks ∧
      (dbs_check_cpu usecs_to_jiffies t suspended total_idle_ticks s).1.enable = s.enable := by
  by_cases hlow : lowering_taken usecs_to_jiffies t total_idle_ticks s
  · rw [dbs_check_cpu_of_lowering usecs_to_jiffies t suspended total_idle_ticks s hlow,
      dbs_check_lower_frame]
    exact ⟨rfl, rfl, rfl, rfl⟩
  · rw [dbs_check_cpu_of_hold usecs_to_jiffies t suspended total_idle_ticks s h hlow]
    exact ⟨rfl, rfl, rfl, rfl⟩

/-- A run over two lists of ticks is the run over the second from the state
the first one ends in. -/
theorem run_ticks_append (usecs_to_jiffies : Nat → Nat) :
    ∀ (a b : List tick_input) (s : cpu_dbs_info_s),
      run_ticks usecs_to_jiffies s (a ++ b) =
        ((run_ticks usecs_to_jiffies (run_ticks usecs_to_jiffies s a).1 b).1,
          (run_ticks usecs_to_jiffies s a).2 ++
            (run_ticks usecs_to_jiffies (run_ticks usecs_to_jiffies s a).1 b).2) := by
  intro a
  induction a with
  | nil => intro b s; simp [run_ticks]
  | cons i is ih =>
    intro b s
    have hcons : run_ticks usecs_to_jiffies s (i :: (is ++ b)) =
        ((run_ticks usecs_to_jiffies
            (dbs_check_cpu usecs_to_jiffies i.tuners i.suspended i.total_idle_ticks s).1
            (is ++ b)).1,
          (dbs_check_cpu usecs_to_jiffies i.tuners i.suspended i.total_idle_ticks s).2 ::
            (run_ticks usecs_to_jiffies
              (dbs_check_cpu usecs_to_jiffies i.tuners i.suspended i.total_idle_ticks s).1
              (is ++ b)).2) := rfl
    rw [List.cons_append, hcons, ih]
    rfl

/-- The up-condition fails along two lists of ticks exactly when it fails
along the first and along the second from the state the first one ends in. -/
theorem no_up_run_append (usecs_to_jiffies : Nat → Nat) :
    ∀ (a b : List tick_input) (s : cpu_dbs_info_s),
      no_up_run usecs_to_jiffies s (a ++ b) =
        (no_up_run usecs_to_jiffies s a &&
          no_up_run usecs_to_jiffies (run_ticks usecs_to_jiffies s a).1 b) := by
  intro a
  induction a with
  | nil => intro b s; simp [run_ticks, no_up_run]
  | cons i is ih =>
    intro b s
    have hcons : no_up_run usecs_to_jiffies s (i :: (is ++ b)) =
        (!decide (up_condition usecs_to_jiffies i.tuners i.total_idle_ticks s) &&
          no_up_run usecs_to_jiffies
            (dbs_check_cpu usecs_to_jiffies i.tuners i.suspended i.total_idle_ticks s).1
            (is ++ b)) := rfl
    rw [List.cons_append, hcons, ih, ← Bool.and_assoc]
    rfl

/-- The up-condition fails along every initial part of a run along which it
fails. -/
theorem no_up_run_take (usecs_to_jiffies : Nat → Nat) (ticks : List tick_input)
    (s : cpu_dbs_info_s) (k : Nat) (h : no_up_run usecs_to_jiffies s ticks = true) :
    no_up_run usecs_to_jiffies s (ticks.take k) = true := by
  have hsplit := no_up_run_append usecs_to_jiffies (ticks.take k) (ticks.drop k) s
  rw [List.take_append_drop, h] at hsplit
  have := hsplit.symm
  simp only [Bool.and_eq_true] at this
  exact this.1

/-- While the counter stays below the factor `N` and the up-condition fails,
the ticks issue no request and change only `prev_cpu_idle_up` and `down_skip`,
which counts them. -/
theorem run_ticks_skip_phase (usecs_to_jiffies : Nat → Nat) (N : Nat) (hN : N ≤ 10) :
    ∀ (ticks : List tick_input) (s : cpu_dbs_info_s), s.enable ≠ 0 →
      (∀ i ∈ ticks, i.tuners.sampling_down_factor = N) →
      no_up_run usecs_to_jiffies s ticks = true →
      s.down_skip + ticks.length < N →
      (run_ticks usecs_to_jiffies s ticks).2 = List.replicate ticks.length none ∧
        (run_ticks usecs_to_jiffies s ticks).1.requested_freq = s.requested_freq ∧
        (run_ticks usecs_to_jiffies s ticks).1.prev_cpu_idle_down = s.prev_cpu_idle_down ∧
        (run_ticks usecs_to_jiffies s ticks).1.down_skip = s.down_skip + ticks.length ∧
        (run_ticks usecs_to_jiffies s ticks).1.enable = s.enable := by
  intro ticks
  induction ticks with
  | nil => intro s _ _ _ _; simp [run_ticks]
  | cons i is ih =>
    intro s hen hsdf hnoup hlen
    simp only [no_up_run, Bool.and_eq_true, Bool.not_eq_true', decide_eq_false_iff_not]
      at hnoup
    simp only [List.length_cons] at hlen
    have hmod : (s.down_skip + 1) % U32 = s.down_skip + 1 := by
      unfold U32; omega
    have hskip : (s.down_skip + 1) % U32 < i.tuners.sampling_down_factor := by
      rw [hsdf i (List.mem_cons_self i is), hmod]; omega
    have hstep := dbs_check_cpu_of_skip usecs_to_jiffies i.tuners i.suspended
      i.total_idle_ticks s hen hnoup.1 hskip
    have hrest := hnoup.2
    rw [hstep] at hrest
    have key := ih
      { s with prev_cpu_idle_up := i.total_idle_ticks, down_skip := (s.down_skip + 1) % U32 }
      hen (fun j hj => hsdf j (List.mem_cons_of_mem i hj)) hrest
      (by simp only [hmod]; omega)
    simp only [run_ticks, hstep, List.length_cons, List.replicate_succ]
    obtain ⟨k1, k2, k3, k4, k5⟩ := key
    refine ⟨by rw [k1], k2, k3, ?_, k5⟩
    rw [k4]
    simp only [hmod]
    omega


/-- For a factor `N` in `[1, 10]` held fixed and an enabled CPU with
`down_skip = 0`, over `N` consecutive ticks on none of which the up-condition
holds: each of the first `N - 1` ticks issues no request and leaves
`requested_freq` and `prev_cpu_idle_down` unchanged; the `N`-th tick evaluates
the down-check and ends with `down_skip = 0` and the snapshot at its idle
reading; its result is the lowering branch exactly when the smaller of the
delta over all `N` periods and the scaled up-window value left in
`idle_ticks`, times 100 in 32 bits, exceeds `down_idle_ticks`. -/
theorem run_ticks_down_window (usecs_to_jiffies : Nat → Nat) (N : Nat)
    (s : cpu_dbs_info_s) (ticks : List tick_input) (last : tick_input)
    (hN10 : N ≤ 10) (hen : s.enable ≠ 0) (hskip0 : s.down_skip = 0)
    (hlen : ticks.length + 1 = N)
    (hsdf : ∀ i ∈ ticks ++ [last], i.tuners.sampling_down_factor = N)
    (hnoup : no_up_run usecs_to_jiffies s (ticks ++ [last]) = true) :
    (∀ k, k ≤ ticks.length →
        (run_ticks usecs_to_jiffies s (ticks.take k)).2 = List.replicate k none ∧
        (run_ticks usecs_to_jiffies s (ticks.take k)).1.requested_freq = s.requested_freq ∧
        (run_ticks usecs_to_jiffies s (ticks.take k)).1.prev_cpu_idle_down
          = s.prev_cpu_idle_down) ∧
      down_evaluated usecs_to_jiffies last.tuners last.total_idle_ticks
        (run_ticks usecs_to_jiffies s ticks).1 ∧
      dbs_check_cpu usecs_to_jiffies last.tuners last.suspended last.total_idle_ticks
          (run_ticks usecs_to_jiffies s ticks).1 =
        (if ((if (last.total_idle_ticks + U32 - s.prev_cpu_idle_down) % U32
                < up_idle_scaled last.total_idle_ticks
                    (run_ticks usecs_to_jiffies s ticks).1.prev_cpu_idle_up
              then (last.total_idle_ticks + U32 - s.prev_cpu_idle_down) % U32
              else up_idle_scaled last.total_idle_ticks
                    (run_ticks usecs_to_jiffies s ticks).1.prev_cpu_idle_up) * 100) % U32
            > down_idle_ticks usecs_to_jiffies last.tuners
         then dbs_check_lower last.suspended
           (down_evaluated_state last.total_idle_ticks (run_ticks usecs_to_jiffies s ticks).1)
         else
           (down_evaluated_state last.total_idle_ticks (run_ticks usecs_to_jiffies s ticks).1,
             none)) ∧
      (run_ticks usecs_to_jiffies s (ticks ++ [last])).2 =
        List.replicate ticks.length none ++
          [(dbs_check_cpu usecs_to_jiffies last.tuners last.suspended last.total_idle_ticks
            (run_ticks usecs_to_jiffies s ticks).1).2] ∧
      (run_ticks usecs_to_jiffies s (ticks ++ [last])).1.down_skip = 0 ∧
      (run_ticks usecs_to_jiffies s (ticks ++ [last])).1.prev_cpu_idle_down
        = last.total_idle_ticks := by
  have happ := no_up_run_append usecs_to_jiffies ticks [last] s
  rw [hnoup] at happ
  have happ2 := happ.symm
  simp only [Bool.and_eq_true] at happ2
  obtain ⟨hnoup1, hnoup2⟩ := happ2
  have hsdf1 : ∀ i ∈ ticks, i.tuners.sampling_down_factor = N :=
    fun i hi => hsdf i (List.mem_append_left [last] hi)
  have hsdfl : last.tuners.sampling_down_factor = N :=
    hsdf last (List.mem_append_right ticks (List.mem_singleton_self last))
  have hfull := run_ticks_skip_phase usecs_to_jiffies N hN10 ticks s hen hsdf1 hnoup1
    (by omega)
  obtain ⟨f1, _, f3, f4, f5⟩ := hfull
  have hupl : ¬ up_condition usecs_to_jiffies last.tuners last.total_idle_ticks
      (run_ticks usecs_to_jiffies s ticks).1 := by
    simp only [no_up_run, Bool.and_true, Bool.not_eq_true', decide_eq_false_iff_not] at hnoup2
    exact hnoup2
  have hev : down_evaluated usecs_to_jiffies last.tuners last.total_idle_ticks
      (run_ticks usecs_to_jiffies s ticks).1 := by
    refine ⟨by rw [f5]; exact hen, hupl, ?_⟩
    rw [f4, hsdfl, hskip0]
    unfold U32
    omega
  have hres := dbs_check_cpu_down_evaluated_resets usecs_to_jiffies last.tuners last.suspended
    last.total_idle_ticks _ hev
  have hlast : run_ticks usecs_to_jiffies (run_ticks usecs_to_jiffies s ticks).1 [last] =
      ((dbs_check_cpu usecs_to_jiffies last.tuners last.suspended last.total_idle_ticks
          (run_ticks usecs_to_jiffies s ticks).1).1,
        [(dbs_check_cpu usecs_to_jiffies last.tuners last.suspended last.total_idle_ticks
          (run_ticks usecs_to_jiffies s ticks).1).2]) := rfl
  have hiff : lowering_taken usecs_to_jiffies last.tuners last.total_idle_ticks
        (run_ticks usecs_to_jiffies s ticks).1 ↔
      ((if (last.total_idle_ticks + U32 - s.prev_cpu_idle_down) % U32
            < up_idle_scaled last.total_idle_ticks
                (run_ticks usecs_to_jiffies s ticks).1.prev_cpu_idle_up
        then (last.total_idle_ticks + U32 - s.prev_cpu_idle_down) % U32
        else up_idle_scaled last.total_idle_ticks
                (run_ticks usecs_to_jiffies s ticks).1.prev_cpu_idle_up) * 100) % U32
        > down_idle_ticks usecs_to_jiffies last.tuners := by
    unfold lowering_taken down_idle_scaled
    simp only [f3]
    exact ⟨fun h => h.2, fun h => ⟨hev, h⟩⟩
  refine ⟨?_, hev, ?_, ?_, ?_, ?_⟩
  · intro k hk
    have hlk : (ticks.take k).length = k := by
      rw [List.length_take]; omega
    have hpre := run_ticks_skip_phase usecs_to_jiffies N hN10 (ticks.take k) s hen
      (fun i hi => hsdf1 i (List.mem_of_mem_take hi))
      (no_up_run_take usecs_to_jiffies ticks s k hnoup1) (by omega)
    rw [hlk] at hpre
    exact ⟨hpre.1, hpre.2.1, hpre.2.2.1⟩
  · by_cases hlow : lowering_taken usecs_to_jiffies last.tuners last.total_idle_ticks
        (run_ticks usecs_to_jiffies s ticks).1
    · rw [if_pos (hiff.mp hlow)]
      exact dbs_check_cpu_of_lowering usecs_to_jiffies last.tuners last.suspended
        last.total_idle_ticks _ hlow
    · rw [if_neg (fun h => hlow (hiff.mpr h))]
      exact dbs_check_cpu_of_hold usecs_to_jiffies last.tuners last.suspended
        last.total_idle_ticks _ hev hlow
  · rw [run_ticks_append, hlast, f1]
  · rw [run_ticks_append, hlast]
    exact hres.1
  · rw [run_ticks_append, hlast]
    exact hres.2.1

/-- The scenario of the specification for the factor 4: suspended, a fully
idle CPU requesting 600000 issues no request on ticks 1 to 3 and one request
(320000) on tick 4, and ends with `down_skip = 0`. -/
theorem run_ticks_down_window_scenario :
    (run_ticks usecs_to_jiffies_10ms (scenario_cpu 200000 1000000 1000 600000)
        ([⟨scenario_tuners, 1, 1010⟩, ⟨scenario_tuners, 1, 1020⟩, ⟨scenario_tuners, 1, 1030⟩]
          ++ [⟨scenario_tuners, 1, 1040⟩])).2 = [none, none, none, some 320000] ∧
      (run_ticks usecs_to_jiffies_10ms (scenario_cpu 200000 1000000 1000 600000)
        ([⟨scenario_tuners, 1, 1010⟩, ⟨scenario_tuners, 1, 1020⟩, ⟨scenario_tuners, 1, 1030⟩]
          ++ [⟨scenario_tuners, 1, 1040⟩])).1.down_skip = 0 :=
  ⟨by decide,
    (run_ticks_down_window usecs_to_jiffies_10ms 4 (scenario_cpu 200000 1000000 1000 600000)
      [⟨scenario_tuners, 1, 1010⟩, ⟨scenario_tuners, 1, 1020⟩, ⟨scenario_tuners, 1, 1030⟩]
      ⟨scenario_tuners, 1, 1040⟩ (by decide) (by decide) (by decide) (by decide)
      (by decide) (by decide)).2.2.2.2.1⟩

/-- C13 (failing input): the factor 10 held fixed (thresholds 95 and 15, a
sampling rate of one second, a 10 ms tick), an awake, enabled CPU with
`down_skip = 0`, requesting 800000, and ten consecutive ticks on none of which
the up-condition holds: nine fully idle periods and a tenth that is 5% idle.
The first nine ticks issue no request and leave `requested_freq` and
`prev_cpu_idle_down` unchanged, and the tenth tick evaluates the down-check
and ends with `down_skip = 0`. The idle delta over all ten periods is
`1905 - 1000 = 905`, and `100 * 905` exceeds `down_idle_ticks = 85000`; an
evaluation with that delta takes the lowering branch and requests 640000. The
tenth tick instead compares `50000 = 100 * 500`, where 500 is the scaled
up-window value of the tenth period alone that line 418 puts in place of 905:
it issues no request and `requested_freq` stays 800000. -/
theorem run_ticks_tenth_tick_capped_by_up_delta :
    (scenario_cpu 200000 1000000 1000 800000).enable ≠ 0 ∧
    (scenario_cpu 200000 1000000 1000 800000).down_skip = 0 ∧
    nine_idle_ticks.length + 1 = 10 ∧
    (∀ i ∈ nine_idle_ticks ++ [tenth_tick], i.tuners.sampling_down_factor = 10) ∧
    no_up_run usecs_to_jiffies_10ms (scenario_cpu 200000 1000000 1000 800000)
      (nine_idle_ticks ++ [tenth_tick]) = true ∧
    (run_ticks usecs_to_jiffies_10ms (scenario_cpu 200000 1000000 1000 800000)
      nine_idle_ticks).2 = List.replicate 9 none ∧
    (run_ticks usecs_to_jiffies_10ms (scenario_cpu 200000 1000000 1000 800000)
      nine_idle_ticks).1.requested_freq = 800000 ∧
    (run_ticks usecs_to_jiffies_10ms (scenario_cpu 200000 1000000 1000 800000)
      nine_idle_ticks).1.prev_cpu_idle_down = 1000 ∧
    down_evaluated usecs_to_jiffies_10ms tenth_tick.tuners tenth_tick.total_idle_ticks
      (run_ticks usecs_to_jiffies_10ms (scenario_cpu 200000 1000000 1000 800000)
        nine_idle_ticks).1 ∧
    (tenth_tick.total_idle_ticks + U32
        - (scenario_cpu 200000 1000000 1000 800000).prev_cpu_idle_down) % U32 = 905 ∧
    down_idle_ticks usecs_to_jiffies_10ms tenth_tick.tuners = 85000 ∧
    (905 * 100) % U32 > down_idle_ticks usecs_to_jiffies_10ms tenth_tick.tuners ∧
    (dbs_check_lower tenth_tick.suspended
      (down_evaluated_state tenth_tick.total_idle_ticks
        (run_ticks usecs_to_jiffies_10ms (scenario_cpu 200000 1000000 1000 800000)
          nine_idle_ticks).1)).2 = some 640000 ∧
    up_idle_scaled tenth_tick.total_idle_ticks
      (run_ticks usecs_to_jiffies_10ms (scenario_cpu 200000 1000000 1000 800000)
        nine_idle_ticks).1.prev_cpu_idle_up = 500 ∧
    down_idle_scaled tenth_tick.total_idle_ticks
      (run_ticks usecs_to_jiffies_10ms (scenario_cpu 200000 1000000 1000 800000)
        nine_idle_ticks).1 = 50000 ∧
    (run_ticks usecs_to_jiffies_10ms (scenario_cpu 200000 1000000 1000 800000)
      (nine_idle_ticks ++ [tenth_tick])).2 = List.replicate 10 none ∧
    (run_ticks usecs_to_jiffies_10ms (scenario_cpu 200000 1000000 1000 800000)
      (nine_idle_ticks ++ [tenth_tick])).1.requested_freq = 800000 ∧
    (run_ticks usecs_to_jiffies_10ms (scenario_cpu 200000 1000000 1000 800000)
      (nine_idle_ticks ++ [tenth_tick])).1.down_skip = 0 := by
  decide

/-! ## The transition notifier and disabled CPUs -/

/-- An update whose function fixes the entry of CPU `cpu` changes nothing. -/
theorem per_cpu_update_fixed (f : cpu_dbs_info_s → cpu_dbs_info_s) :
    ∀ (xs : List cpu_dbs_info_s) (cpu : Nat) (x : cpu_dbs_info_s),
      xs[cpu]? = some x → f x = x → per_cpu_update f xs cpu = xs := by
  intro xs
  induction xs with
  | nil => intro cpu x _ _; rfl
  | cons y ys ih =>
    intro cpu x hx hf
    cases cpu with
    | zero =>
      simp only [List.getElem?_cons_zero, Option.some.injEq] at hx
      subst hx
      simp only [per_cpu_update, hf]
    | succ cpu =>
      simp only [List.getElem?_cons_succ] at hx
      simp only [per_cpu_update, ih cpu x hx hf]

/-- C14: a frequency-change notification for CPU `c` with the new frequency
`f` returns 0 and changes no tunable and no other CPU; if the enable flag of
CPU `c` is set it sets the `requested_freq` of that CPU to `f` and changes no
other field of it; if the flag is clear the whole state is unchanged. -/
theorem dbs_cpufreq_notifier_effect (st : dbs_state) (c f : Nat) :
    (dbs_cpufreq_notifier st c f).2 = 0 ∧
      (dbs_cpufreq_notifier st c f).1.tuners = st.tuners ∧
      (∀ j, j ≠ c → (dbs_cpufreq_notifier st c f).1.cpu_dbs_info[j]? = st.cpu_dbs_info[j]?) ∧
      (∀ x, st.cpu_dbs_info[c]? = some x → x.enable ≠ 0 →
        (dbs_cpufreq_notifier st c f).1.cpu_dbs_info[c]? = some { x with requested_freq := f }) ∧
      (∀ x, st.cpu_dbs_info[c]? = some x → x.enable = 0 →
        (dbs_cpufreq_notifier st c f).1 = st) := by
  unfold dbs_cpufreq_notifier
  refine ⟨rfl, rfl, ?_, ?_, ?_⟩
  · intro j hj
    simp only [per_cpu_update_getElem, if_neg hj]
  · intro x hx hen
    simp only [per_cpu_update_getElem, if_true, hx, Option.map_some',
      dbs_cpufreq_notifier_info, if_neg hen]
  · intro x hx hen
    have hfix : dbs_cpufreq_notifier_info f x = x := by
      simp only [dbs_cpufreq_notifier_info, hen, if_true]
    simp only [per_cpu_update_fixed (dbs_cpufreq_notifier_info f) st.cpu_dbs_info c x hx hfix]

/-- C14 (witness): two CPUs, the first enabled and the second disabled; a
notification of 800000 for CPU 0 sets its `requested_freq`, one for CPU 1
changes nothing. -/
theorem dbs_cpufreq_notifier_effect_witness :
    (dbs_cpufreq_notifier
        { tuners := dbs_tuners_ins,
          cpu_dbs_info := [scenario_cpu 200000 1000000 1000 600000,
            { scenario_cpu 200000 1000000 1000 600000 with enable := 0 }] }
        0 800000).1.cpu_dbs_info[0]?
      = some { scenario_cpu 200000 1000000 1000 600000 with requested_freq := 800000 } ∧
    (dbs_cpufreq_notifier
        { tuners := dbs_tuners_ins,
          cpu_dbs_info := [scenario_cpu 200000 1000000 1000 600000,
            { scenario_cpu 200000 1000000 1000 600000 with enable := 0 }] }
        1 800000).1
      = { tuners := dbs_tuners_ins,
          cpu_dbs_info := [scenario_cpu 200000 1000000 1000 600000,
            { scenario_cpu 200000 1000000 1000 600000 with enable := 0 }] } :=
  ⟨(dbs_cpufreq_notifier_effect
      { tuners := dbs_tuners_ins,
        cpu_dbs_info := [scenario_cpu 200000 1000000 1000 600000,
          { scenario_cpu 200000 1000000 1000 600000 with enable := 0 }] }
      0 800000).2.2.2.1 (scenario_cpu 200000 1000000 1000 600000) (by decide) (by decide),
    (dbs_cpufreq_notifier_effect
      { tuners := dbs_tuners_ins,
        cpu_dbs_info := [scenario_cpu 200000 1000000 1000 600000,
          { scenario_cpu 200000 1000000 1000 600000 with enable := 0 }] }
      1 800000).2.2.2.2 { scenario_cpu 200000 1000000 1000 600000 with enable := 0 }
      (by decide) (by decide)⟩

/-- C15: for a CPU whose enable flag is clear, `dbs_check_cpu` issues no
request and leaves the per-CPU state unchanged, whatever the idle reading,
the tunables and the suspend state. -/
theorem dbs_check_cpu_disabled (usecs_to_jiffies : Nat → Nat) (t : dbs_tuners)
    (suspended total_idle_ticks : Nat) (s : cpu_dbs_info_s) (hen : s.enable = 0) :
    dbs_check_cpu usecs_to_jiffies t suspended total_idle_ticks s = (s, none) := by
  unfold dbs_check_cpu
  simp only [hen, if_true]

/-- C15 (witness): a disabled, busy CPU while awake: no request, same state. -/
theorem dbs_check_cpu_disabled_witness :
    dbs_check_cpu usecs_to_jiffies_10ms scenario_tuners 0 1003
        { scenario_cpu 200000 1000000 1000 300000 with enable := 0 }
      = ({ scenario_cpu 200000 1000000 1000 300000 with enable := 0 }, none) :=
  dbs_check_cpu_disabled usecs_to_jiffies_10ms scenario_tuners 0 1003
    { scenario_cpu 200000 1000000 1000 300000 with enable := 0 } (by decide)


/-! ## The down-decision -/

/-- C16 (failing input): thresholds 95 and 15, a sampling rate of one second,
a factor of 10, a 10 ms tick, awake. After nine fully idle periods the tenth
tick reads 1905: its own period was 5% idle, so the up-condition fails
(`500 < 500` is false) and the down-check is evaluated. The down-window delta
is `1905 - 1000 = 905` and `100 * 905 = 90500` exceeds the threshold
`85 * 1000 = 85000`, yet the lowering branch is not taken: line 418 replaces
905 by the scaled up-window value 500 left in `idle_ticks`, and
`500 * 100 = 50000` does not exceed 85000. No request is issued and
`requested_freq` stays 800000. -/
theorem dbs_check_cpu_down_decision_capped_by_up_delta :
    (run_ticks usecs_to_jiffies_10ms (scenario_cpu 200000 1000000 1000 800000)
        ((List.range 9).map (fun k => ⟨long_window_tuners, 0, 1100 + 100 * k⟩))).1
      = { scenario_cpu 200000 1000000 1900 800000 with
          prev_cpu_idle_down := 1000, down_skip := 9 } ∧
    down_evaluated usecs_to_jiffies_10ms long_window_tuners 1905
      { scenario_cpu 200000 1000000 1900 800000 with
        prev_cpu_idle_down := 1000, down_skip := 9 } ∧
    100 * (1905 - 1000) >
      (100 - long_window_tuners.down_threshold) *
        usecs_to_jiffies_10ms
          (long_window_tuners.sampling_rate * long_window_tuners.sampling_down_factor) ∧
    down_idle_ticks usecs_to_jiffies_10ms long_window_tuners = 85000 ∧
    down_idle_scaled 1905
      { scenario_cpu 200000 1000000 1900 800000 with
        prev_cpu_idle_down := 1000, down_skip := 9 } = 50000 ∧
    ¬ lowering_taken usecs_to_jiffies_10ms long_window_tuners 1905
      { scenario_cpu 200000 1000000 1900 800000 with
        prev_cpu_idle_down := 1000, down_skip := 9 } ∧
    dbs_check_cpu usecs_to_jiffies_10ms long_window_tuners 0 1905
        { scenario_cpu 200000 1000000 1900 800000 with
          prev_cpu_idle_down := 1000, down_skip := 9 }
      = (scenario_cpu 200000 1000000 1905 800000, none) := by
  decide

/-- Outside the early exit, the lowering branch requests the frequency it
stores. -/
theorem dbs_check_lower_request (suspended : Nat) (s : cpu_dbs_info_s)
    (hne : ¬ (s.requested_freq = s.cur_policy.min ∧ suspended ≠ 0)) :
    (dbs_check_lower suspended s).2 = some (dbs_check_lower suspended s).1.requested_freq := by
  unfold dbs_check_lower
  simp only []
  rw [if_neg hne]

/-- Outside the early exit, the lowering branch stores the regime clamp of the
stepped-down frequency. -/
theorem dbs_check_lower_value (suspended : Nat) (s : cpu_dbs_info_s)
    (hne : ¬ (s.requested_freq = s.cur_policy.min ∧ suspended ≠ 0)) :
    (dbs_check_lower suspended s).1.requested_freq =
      regime_clamp suspended
        (if s.requested_freq < FREQ_STEP_DOWN ∨
            s.requested_freq - FREQ_STEP_DOWN < s.cur_policy.min
         then s.cur_policy.min else s.requested_freq - FREQ_STEP_DOWN) := by
  unfold dbs_check_lower regime_clamp FREQ_STEP_DOWN FREQ_SLEEP_MAX FREQ_AWAKE_MIN
  simp only []
  rw [if_neg hne]
  by_cases hs : suspended = 0
  · simp only [hs, ne_eq, not_true_eq_false, false_and, true_and, if_false, Nat.max_def]
    split_ifs <;> first | omega | (exfalso; assumption)
  · simp only [hs, ne_eq, not_false_eq_true, false_and, true_and, if_false, if_true,
      Nat.min_def]
    split_ifs <;> first | omega | (exfalso; assumption)

/-- C17: when the lowering branch is taken and the early exit
(`requested_freq = policy.min` while suspended) does not apply, the new
`requested_freq`, which is also the request issued, is the regime clamp of
`v`, where `v` is `policy.min` if `requested_freq < FREQ_STEP_DOWN` or
`requested_freq - FREQ_STEP_DOWN < policy.min`, and
`requested_freq - FREQ_STEP_DOWN` otherwise, in which case
`FREQ_STEP_DOWN ≤ requested_freq` and the subtraction does not wrap; when the
early exit applies, `requested_freq` is unchanged and no request is issued. -/
theorem dbs_check_cpu_lowering_value (usecs_to_jiffies : Nat → Nat) (t : dbs_tuners)
    (suspended total_idle_ticks : Nat) (s : cpu_dbs_info_s)
    (h : lowering_taken usecs_to_jiffies t total_idle_ticks s) :
    (¬ (s.requested_freq = s.cur_policy.min ∧ suspended ≠ 0) →
        (dbs_check_cpu usecs_to_jiffies t suspended total_idle_ticks s).1.requested_freq =
          regime_clamp suspended
            (if s.requested_freq < FREQ_STEP_DOWN ∨
                s.requested_freq - FREQ_STEP_DOWN < s.cur_policy.min
             then s.cur_policy.min else s.requested_freq - FREQ_STEP_DOWN) ∧
        (dbs_check_cpu usecs_to_jiffies t suspended total_idle_ticks s).2 =
          some (regime_clamp suspended
            (if s.requested_freq < FREQ_STEP_DOWN ∨
                s.requested_freq - FREQ_STEP_DOWN < s.cur_policy.min
             then s.cur_policy.min else s.requested_freq - FREQ_STEP_DOWN)) ∧
        (¬ (s.requested_freq < FREQ_STEP_DOWN ∨
              s.requested_freq - FREQ_STEP_DOWN < s.cur_policy.min) →
          FREQ_STEP_DOWN ≤ s.requested_freq ∧
            (s.requested_freq - FREQ_STEP_DOWN) + FREQ_STEP_DOWN = s.requested_freq)) ∧
      (s.requested_freq = s.cur_policy.min ∧ suspended ≠ 0 →
        (dbs_check_cpu usecs_to_jiffies t suspended total_idle_ticks s).1.requested_freq =
          s.requested_freq ∧
        (dbs_check_cpu usecs_to_jiffies t suspended total_idle_ticks s).2 = none) := by
  rw [dbs_check_cpu_of_lowering usecs_to_jiffies t suspended total_idle_ticks s h]
  constructor
  · intro hne
    have hv := dbs_check_lower_value suspended (down_evaluated_state total_idle_ticks s) hne
    have hr := dbs_check_lower_request suspended (down_evaluated_state total_idle_ticks s) hne
    refine ⟨hv, ?_, ?_⟩
    · rw [hr, hv]
      rfl
    · intro hcase
      omega
  · intro he
    have he2 : (down_evaluated_state total_idle_ticks s).requested_freq =
        (down_evaluated_state total_idle_ticks s).cur_policy.min ∧ suspended ≠ 0 := he
    unfold dbs_check_lower
    simp only []
    rw [if_pos he2]
    exact ⟨rfl, rfl⟩

/-- C17 (witness): suspended, a fully idle CPU at the fourth tick of its
window requesting 600000 with `policy.min = 200000`: `v` is 440000 and its
regime clamp 320000 is stored and requested. -/
theorem dbs_check_cpu_lowering_value_witness :
    lowering_taken usecs_to_jiffies_10ms scenario_tuners 1040
        { scenario_cpu 200000 1000000 1030 600000 with
          prev_cpu_idle_down := 1000, down_skip := 3 } ∧
      (dbs_check_cpu usecs_to_jiffies_10ms scenario_tuners 1 1040
        { scenario_cpu 200000 1000000 1030 600000 with
          prev_cpu_idle_down := 1000, down_skip := 3 }).1.requested_freq = 320000 :=
  ⟨by decide,
    ((dbs_check_cpu_lowering_value usecs_to_jiffies_10ms scenario_tuners 1 1040
      { scenario_cpu 200000 1000000 1030 600000 with
        prev_cpu_idle_down := 1000, down_skip := 3 } (by decide)).1 (by decide)).1.trans
      (by decide)⟩


/-! ## The range of the hysteresis counter -/

/-- The up-branch changes only `down_skip`, which becomes zero,
`prev_cpu_idle_down` and `requested_freq`. -/
theorem dbs_check_up_down_skip (suspended : Nat) (s : cpu_dbs_info_s) :
    (dbs_check_up suspended s).1.down_skip = 0 ∧
      (dbs_check_up suspended s).1.prev_cpu_idle_down = s.prev_cpu_idle_up ∧
      (dbs_check_up suspended s).1.prev_cpu_idle_up = s.prev_cpu_idle_up := by
  unfold dbs_check_up
  simp only []
  split_ifs <;> exact ⟨rfl, rfl, rfl⟩

/-- A tick keeps `down_skip` below a factor it was below. -/
theorem dbs_check_cpu_down_skip_lt (usecs_to_jiffies : Nat → Nat) (t : dbs_tuners)
    (suspended total_idle_ticks : Nat) (s : cpu_dbs_info_s)
    (h : s.down_skip < t.sampling_down_factor) :
    (dbs_check_cpu usecs_to_jiffies t suspended total_idle_ticks s).1.down_skip
      < t.sampling_down_factor := by
  by_cases hen : s.enable = 0
  · unfold dbs_check_cpu
    simp only [hen, if_true]
    exact h
  · by_cases hup : up_condition usecs_to_jiffies t total_idle_ticks s
    · rw [dbs_check_cpu_of_up usecs_to_jiffies t suspended total_idle_ticks s hen hup,
        (dbs_check_up_down_skip suspended _).1]
      omega
    · by_cases hskip : (s.down_skip + 1) % U32 < t.sampling_down_factor
      · rw [dbs_check_cpu_of_skip usecs_to_jiffies t suspended total_idle_ticks s hen hup hskip]
        exact hskip
      · rw [(dbs_check_cpu_down_evaluated_resets usecs_to_jiffies t suspended total_idle_ticks s
          ⟨hen, hup, hskip⟩).1]
        omega

/-- C18 (amended): `down_skip < sampling_down_factor` holds for the default
tunables (factor 4) with every `down_skip` zero, and from a state in which it
holds for every CPU it is preserved by every `dbs_check_cpu` step, by every
transition notification, by every write to `sampling_rate`, `up_threshold`,
`down_threshold` and `ignore_nice_load`, and by a write of `n` to
`sampling_down_factor` that is rejected or has `n` above the `down_skip` of
every CPU. -/
theorem down_skip_in_range_preserved (usecs_to_jiffies : Nat → Nat)
    (def_sampling_rate : Nat) (cpu_online : Nat → Bool) (st : dbs_state)
    (h : down_skip_in_range st) :
    (∀ cpus : List cpu_dbs_info_s, (∀ x ∈ cpus, x.down_skip = 0) →
        down_skip_in_range { tuners := dbs_tuners_ins, cpu_dbs_info := cpus }) ∧
      (∀ suspended total_idle_ticks cpu,
        down_skip_in_range
          (dbs_check_cpu_state usecs_to_jiffies suspended total_idle_ticks st cpu)) ∧
      (∀ c f, down_skip_in_range (dbs_cpufreq_notifier st c f).1) ∧
      (∀ w : tunable_write,
        (∀ ret n count, w = tunable_write.sampling_down_factor ret n count →
          (tunable_store def_sampling_rate cpu_online st w).2 = -EINVAL ∨
            ∀ x ∈ st.cpu_dbs_info, x.down_skip < n) →
        down_skip_in_range (tunable_store def_sampling_rate cpu_online st w).1) := by
  unfold down_skip_in_range at h
  refine ⟨?_, ?_, ?_, ?_⟩
  · intro cpus hz x hx
    rw [hz x hx]
    simp [dbs_tuners_ins, DEF_SAMPLING_DOWN_FACTOR]
  · intro suspended total_idle_ticks cpu
    unfold down_skip_in_range dbs_check_cpu_state
    exact per_cpu_update_forall _ (fun x => x.down_skip < st.tuners.sampling_down_factor)
      (fun x hx => dbs_check_cpu_down_skip_lt usecs_to_jiffies st.tuners suspended
        total_idle_ticks x hx) st.cpu_dbs_info cpu h
  · intro c f
    unfold down_skip_in_range dbs_cpufreq_notifier
    refine per_cpu_update_forall _ (fun x => x.down_skip < st.tuners.sampling_down_factor)
      ?_ st.cpu_dbs_info c h
    intro x hx
    unfold dbs_cpufreq_notifier_info
    split_ifs <;> exact hx
  · intro w hw
    unfold down_skip_in_range
    cases w with
    | sampling_rate ret n count =>
      simp only [tunable_store, store_sampling_rate]
      split_ifs <;> exact h
    | sampling_down_factor ret n count =>
      have hw2 := hw ret n count rfl
      simp only [tunable_store, store_sampling_down_factor, EINVAL] at hw2 ⊢
      split_ifs at hw2 ⊢ with hrej
      · exact h
      · rcases hw2 with hw2 | hw2
        · exact hw2.elim
        · exact hw2
    | up_threshold ret n count =>
      simp only [tunable_store, store_up_threshold]
      split_ifs <;> exact h
    | down_threshold ret n count =>
      simp only [tunable_store, store_down_threshold]
      split_ifs <;> exact h
    | ignore_nice_load ret n count =>
      simp only [tunable_store, store_ignore_nice_load]
      split_ifs
      · exact h
      · exact h
      · exact rebaseline_online_forall cpu_online
          (fun x => x.down_skip < st.tuners.sampling_down_factor) (fun x hx => hx)
          st.cpu_dbs_info 0 h
      · exact h
      · exact rebaseline_online_forall cpu_online
          (fun x => x.down_skip < st.tuners.sampling_down_factor) (fun x hx => hx)
          st.cpu_dbs_info 0 h

/-- C18 (witness): the scenario tunables (factor 4) and one CPU with
`down_skip = 3`: the range holds and holds again after a tick of CPU 0. -/
theorem down_skip_in_range_preserved_witness :
    down_skip_in_range
        { tuners := scenario_tuners,
          cpu_dbs_info := [{ scenario_cpu 200000 1000000 1030 600000 with
            prev_cpu_idle_down := 1000, down_skip := 3 }] } ∧
      down_skip_in_range
        (dbs_check_cpu_state usecs_to_jiffies_10ms 1 1040
          { tuners := scenario_tuners,
            cpu_dbs_info := [{ scenario_cpu 200000 1000000 1030 600000 with
              prev_cpu_idle_down := 1000, down_skip := 3 }] } 0) :=
  ⟨by decide,
    (down_skip_in_range_preserved usecs_to_jiffies_10ms 20000 (fun _ => true)
      { tuners := scenario_tuners,
        cpu_dbs_info := [{ scenario_cpu 200000 1000000 1030 600000 with
          prev_cpu_idle_down := 1000, down_skip := 3 }] } (by decide)).2.1 1 1040 0⟩

/-- C18 (counterexample): with the factor 4, a suspended, fully idle CPU has
`down_skip = 3` after three ticks, within the range; a write of 2 to
`sampling_down_factor` is accepted and leaves `down_skip = 3` not below the
factor 2. -/
theorem store_sampling_down_factor_below_down_skip :
    (run_ticks usecs_to_jiffies_10ms (scenario_cpu 200000 1000000 1000 600000)
        [⟨scenario_tuners, 1, 1010⟩, ⟨scenario_tuners, 1, 1020⟩,
          ⟨scenario_tuners, 1, 1030⟩]).1.down_skip = 3 ∧
      down_skip_in_range
        { tuners := scenario_tuners,
          cpu_dbs_info := [(run_ticks usecs_to_jiffies_10ms
            (scenario_cpu 200000 1000000 1000 600000)
            [⟨scenario_tuners, 1, 1010⟩, ⟨scenario_tuners, 1, 1020⟩,
              ⟨scenario_tuners, 1, 1030⟩]).1] } ∧
      (tunable_store 20000 (fun _ => true)
        { tuners := scenario_tuners,
          cpu_dbs_info := [(run_ticks usecs_to_jiffies_10ms
            (scenario_cpu 200000 1000000 1000 600000)
            [⟨scenario_tuners, 1, 1010⟩, ⟨scenario_tuners, 1, 1020⟩,
              ⟨scenario_tuners, 1, 1030⟩]).1] }
        (tunable_write.sampling_down_factor 1 2 1)).2 = 1 ∧
      ¬ down_skip_in_range
        (tunable_store 20000 (fun _ => true)
          { tuners := scenario_tuners,
            cpu_dbs_info := [(run_ticks usecs_to_jiffies_10ms
              (scenario_cpu 200000 1000000 1000 600000)
              [⟨scenario_tuners, 1, 1010⟩, ⟨scenario_tuners, 1, 1020⟩,
                ⟨scenario_tuners, 1, 1030⟩]).1] }
          (tunable_write.sampling_down_factor 1 2 1)).1 := by
  decide


/-! ## Wraparound of the idle counter -/

/-- On an enabled CPU every tick stores the idle reading in
`prev_cpu_idle_up`. -/
theorem dbs_check_cpu_prev_cpu_idle_up (usecs_to_jiffies : Nat → Nat) (t : dbs_tuners)
    (suspended total_idle_ticks : Nat) (s : cpu_dbs_info_s) (hen : s.enable ≠ 0) :
    (dbs_check_cpu usecs_to_jiffies t suspended total_idle_ticks s).1.prev_cpu_idle_up
      = total_idle_ticks := by
  by_cases hup : up_condition usecs_to_jiffies t total_idle_ticks s
  · rw [dbs_check_cpu_of_up usecs_to_jiffies t suspended total_idle_ticks s hen hup,
      (dbs_check_up_down_skip suspended _).2.2]
  · by_cases hskip : (s.down_skip + 1) % U32 < t.sampling_down_factor
    · rw [dbs_check_cpu_of_skip usecs_to_jiffies t suspended total_idle_ticks s hen hup hskip]
    · exact (dbs_check_cpu_down_evaluated_resets usecs_to_jiffies t suspended
        total_idle_ticks s ⟨hen, hup, hskip⟩).2.2.1

/-- C19: for an enabled CPU with previous snapshot `p < 2^32` and a true idle
increase `d` with `100 * d < 2^32`, when the idle reading is
`(p + d) mod 2^32` (also when it has wrapped and is smaller than `p`),
`dbs_check_cpu` computes the delta `d` and the scaled value `100 * d`, stores
the reading in `prev_cpu_idle_up`, and takes the up-branch exactly when
`100 * d` is below `up_idle_ticks`, the 32-bit value of
`(100 - up_threshold) * usecs_to_jiffies(sampling_rate)`, which is that
product when `up_threshold ≤ 100` and the product is below `2^32`; on taking
the up-branch it sets `down_skip` to 0 and `prev_cpu_idle_down` to the new
`prev_cpu_idle_up`, and otherwise it goes on to the down-check. -/
theorem dbs_check_cpu_idle_wraparound (usecs_to_jiffies : Nat → Nat) (t : dbs_tuners)
    (suspended d : Nat) (s : cpu_dbs_info_s)
    (hen : s.enable ≠ 0) (hp : s.prev_cpu_idle_up < U32) (hd : 100 * d < U32) :
    ((s.prev_cpu_idle_up + d) % U32 + U32 - s.prev_cpu_idle_up) % U32 = d ∧
      up_idle_scaled ((s.prev_cpu_idle_up + d) % U32) s.prev_cpu_idle_up = 100 * d ∧
      (dbs_check_cpu usecs_to_jiffies t suspended ((s.prev_cpu_idle_up + d) % U32)
          s).1.prev_cpu_idle_up = (s.prev_cpu_idle_up + d) % U32 ∧
      (up_condition usecs_to_jiffies t ((s.prev_cpu_idle_up + d) % U32) s ↔
        100 * d < up_idle_ticks usecs_to_jiffies t) ∧
      (t.up_threshold ≤ 100 →
        (100 - t.up_threshold) * usecs_to_jiffies t.sampling_rate < U32 →
        up_idle_ticks usecs_to_jiffies t
          = (100 - t.up_threshold) * usecs_to_jiffies t.sampling_rate) ∧
      (100 * d < up_idle_ticks usecs_to_jiffies t →
        dbs_check_cpu usecs_to_jiffies t suspended ((s.prev_cpu_idle_up + d) % U32) s =
          dbs_check_up suspended
            { s with prev_cpu_idle_up := (s.prev_cpu_idle_up + d) % U32 } ∧
        (dbs_check_cpu usecs_to_jiffies t suspended ((s.prev_cpu_idle_up + d) % U32)
          s).1.down_skip = 0 ∧
        (dbs_check_cpu usecs_to_jiffies t suspended ((s.prev_cpu_idle_up + d) % U32)
          s).1.prev_cpu_idle_down = (s.prev_cpu_idle_up + d) % U32) ∧
      (¬ 100 * d < up_idle_ticks usecs_to_jiffies t →
        dbs_check_cpu usecs_to_jiffies t suspended ((s.prev_cpu_idle_up + d) % U32) s =
          dbs_check_down usecs_to_jiffies t suspended (100 * d)
            { s with prev_cpu_idle_up := (s.prev_cpu_idle_up + d) % U32 }) := by
  have hdelta : ((s.prev_cpu_idle_up + d) % U32 + U32 - s.prev_cpu_idle_up) % U32 = d := by
    unfold U32 at hp hd ⊢
    omega
  have hscaled :
      up_idle_scaled ((s.prev_cpu_idle_up + d) % U32) s.prev_cpu_idle_up = 100 * d := by
    unfold up_idle_scaled
    simp only [hdelta]
    unfold UINT_MAX
    unfold U32 at hd ⊢
    split_ifs <;> omega
  have hcond : up_condition usecs_to_jiffies t ((s.prev_cpu_idle_up + d) % U32) s ↔
      100 * d < up_idle_ticks usecs_to_jiffies t := by
    unfold up_condition
    rw [hscaled]
  refine ⟨hdelta, hscaled,
    dbs_check_cpu_prev_cpu_idle_up usecs_to_jiffies t suspended _ s hen, hcond, ?_, ?_, ?_⟩
  · intro hup hprod
    unfold up_idle_ticks
    have h100 : (100 + U32 - t.up_threshold) % U32 = 100 - t.up_threshold := by
      unfold U32; omega
    rw [h100, Nat.mod_eq_of_lt hprod]
  · intro hlt
    have hup := hcond.mpr hlt
    have heq := dbs_check_cpu_of_up usecs_to_jiffies t suspended
      ((s.prev_cpu_idle_up + d) % U32) s hen hup
    refine ⟨heq, ?_, ?_⟩
    · rw [heq]; exact (dbs_check_up_down_skip suspended _).1
    · rw [heq]; exact (dbs_check_up_down_skip suspended _).2.1
  · intro hnlt
    unfold dbs_check_cpu
    simp only [hen, if_false, hscaled, hnlt]

/-- C19 (witness): the previous snapshot is `2^32 - 1` and the CPU was idle
for 3 ticks, so the reading has wrapped to 2; the delta is 3, the scaled
value 300 is below the threshold 500, and the awake CPU goes to
`policy.max`. -/
theorem dbs_check_cpu_idle_wraparound_witness :
    (4294967295 + 3) % U32 = 2 ∧
      up_idle_scaled 2 4294967295 = 300 ∧
      up_condition usecs_to_jiffies_10ms scenario_tuners 2
        (scenario_cpu 200000 1000000 4294967295 300000) ∧
      (dbs_check_cpu usecs_to_jiffies_10ms scenario_tuners 0 2
        (scenario_cpu 200000 1000000 4294967295 300000)).1.requested_freq = 1000000 :=
  ⟨by decide,
    (dbs_check_cpu_idle_wraparound usecs_to_jiffies_10ms scenario_tuners 0 3
      (scenario_cpu 200000 1000000 4294967295 300000) (by decide) (by decide)
      (by decide)).2.1,
    by decide, by decide⟩

/-! ## The direction of a down-decision -/

/-- C20: for a CPU with `policy.min ≤ requested_freq`, and with `suspended`
true or `requested_freq ≥ FREQ_AWAKE_MIN`, whenever `dbs_check_cpu` takes the
lowering branch (which needs the CPU enabled) the new `requested_freq` is at
most the old one. -/
theorem dbs_check_cpu_lowering_not_above (usecs_to_jiffies : Nat → Nat) (t : dbs_tuners)
    (suspended total_idle_ticks : Nat) (s : cpu_dbs_info_s)
    (hmin : s.cur_policy.min ≤ s.requested_freq)
    (hreg : suspended ≠ 0 ∨ FREQ_AWAKE_MIN ≤ s.requested_freq)
    (h : lowering_taken usecs_to_jiffies t total_idle_ticks s) :
    (dbs_check_cpu usecs_to_jiffies t suspended total_idle_ticks s).1.requested_freq
      ≤ s.requested_freq := by
  rw [dbs_check_cpu_of_lowering usecs_to_jiffies t suspended total_idle_ticks s h]
  unfold dbs_check_lower down_evaluated_state FREQ_STEP_DOWN FREQ_SLEEP_MAX
  unfold FREQ_AWAKE_MIN at hreg ⊢
  simp only []
  by_cases hs : suspended = 0
  · simp only [hs, ne_eq, not_true_eq_false, false_or] at hreg
    simp only [hs]
    split_ifs <;> simp at * <;> omega
  · simp only [hs]
    split_ifs <;> simp at * <;> omega

/-- C20 (witness): suspended, a fully idle CPU at the fourth tick of its
window requesting 600000: the lowering branch is taken and the new request
320000 is not above 600000. -/
theorem dbs_check_cpu_lowering_not_above_witness :
    (dbs_check_cpu usecs_to_jiffies_10ms scenario_tuners 1 1040
        { scenario_cpu 200000 1000000 1030 600000 with
          prev_cpu_idle_down := 1000, down_skip := 3 }).1.requested_freq ≤ 600000 :=
  dbs_check_cpu_lowering_not_above usecs_to_jiffies_10ms scenario_tuners 1 1040
    { scenario_cpu 200000 1000000 1030 600000 with
      prev_cpu_idle_down := 1000, down_skip := 3 } (by decide) (by decide) (by decide)


end Lagfree
